import Mathlib

/-!
Verification of the WeChat channel plugin (message poller, inbound dispatcher,
token resolver, outbound chunker, backend API envelope handling).

Shallow embedding conventions:
* JavaScript strings are Lean `String`s; where character-level reasoning is
  required (the outbound chunker) we work over `List Char`.
* The identity key of a message is the pair `(contactId, msg_id)`. The source
  renders it as the string `contactId ++ ":" ++ toString msg_id`; since a
  msg_id numeral contains no colon, the rendering is injective and the pair is
  a faithful model of the key.
* JS `Map` objects are modelled as functions into `Option`, JS `Set` objects
  (whose iteration order is insertion order) as duplicate-free lists in
  insertion order.
* Asynchronous effects (HTTP fetches, callbacks) are modelled by passing the
  fetched data in as explicit inputs and collecting emitted messages or
  effects as explicit outputs.
-/

/-! ## Chat history items (types.ts `WeChatChatHistoryItem`, fields used by the poller) -/

/-- One item of a fetched chat-history page, as consumed by
`WeChatMessagePoller.poll` and `convertToInboundMessage`. -/
structure WeChatChatHistoryItem where
  msg_id : Nat
  /-- creation time, seconds since epoch -/
  created_at : Nat
  /-- backend marks robot-originated items with the string "robot" -/
  message_source : String
  sender_wxid : String
  sender_nickname : Option String
  to_wxid : String
  content : String
  display_full_content : String
  is_atme : Bool
  is_recalled : Bool
  is_chat_room : Bool
  /-- backend message-type code; 1 is text -/
  type : Nat
  attachment_url : Option String
deriving DecidableEq, Repr

/-- Normalized inbound message produced by the poller (polling.ts
`WeChatInboundMessage`). The source field `from` is a reserved word in Lean
and is rendered `fromId` here. -/
structure WeChatInboundMessage where
  id : String
  msgId : Nat
  fromId : String
  senderWxid : String
  senderNickname : Option String
  toWxid : String
  body : String
  /-- milliseconds -/
  timestamp : Nat
  /-- "direct" or "group", as in the source union type -/
  chatType : String
  chatId : String
  isAtMe : Bool
  isRecalled : Bool
  messageType : Nat
  attachmentUrl : Option String
deriving DecidableEq, Repr

/-- Identity key of a message: the pair underlying the source string
`contactId ++ ":" ++ toString msg_id`. -/
abbrev MsgKey := String × Nat

/-- Key of an item polled for a given contact. -/
def msgKey (contactId : String) (item : WeChatChatHistoryItem) : MsgKey :=
  (contactId, item.msg_id)

/-- Identity key carried by a delivered inbound message (`chatId` is the
contact id and `msgId` the backend message id). -/
def inboundKey (m : WeChatInboundMessage) : MsgKey :=
  (m.chatId, m.msgId)

/-- Character-list test that `pat` occurs at the start of `l`
(JS `String.prototype.startsWith` over characters). -/
def charsStartWith : List Char → List Char → Bool
  | _, [] => true
  | [], _ :: _ => false
  | c :: cs, p :: ps => c == p && charsStartWith cs ps

/-- Character-list test that `pat` occurs somewhere inside `l`
(JS `String.prototype.includes` over characters). -/
def charsContain : List Char → List Char → Bool
  | [], pat => charsStartWith [] pat
  | l@(_ :: rest), pat => charsStartWith l pat || charsContain rest pat

/-- JS `s.includes(pat)`. -/
def strIncludes (s pat : String) : Bool :=
  charsContain s.toList pat.toList

/-- JS `s.trim()` modelled over the character list (the builtin
`String.trim` is defined by well-founded recursion and does not reduce in
proofs; on the ASCII range the whitespace classes agree). -/
def strTrim (s : String) : String :=
  String.mk (((s.toList.dropWhile Char.isWhitespace).reverse.dropWhile
    Char.isWhitespace).reverse)

/-- JS `s.toLowerCase()` modelled over the character list. -/
def strToLower (s : String) : String := String.mk (s.toList.map Char.toLower)

/-- JS `s.startsWith(pat)` modelled over the character list. -/
def strStartsWith (s pat : String) : Bool := charsStartWith s.toList pat.toList

/-- JS `s.endsWith(pat)` modelled over the character list. -/
def strEndsWith (s pat : String) : Bool :=
  charsStartWith s.toList.reverse pat.toList.reverse

/-- JS `s.slice(n)` (drop the first n characters) modelled over the
character list. -/
def strDrop (s : String) (n : Nat) : String := String.mk (s.toList.drop n)

/-! ## Message poller state (polling.ts `WeChatMessagePoller`) -/

namespace WeChatMessagePoller

/-- Mutable state of one poller instance: the seen-set (insertion order), the
per-contact cursor map, and the robot identity fetched at start. -/
structure PollState where
  /-- `seenMessageIds`: JS `Set<string>` in insertion order -/
  seen : List MsgKey
  /-- `lastPollTimestamps`: JS `Map<string, number>` -/
  cursors : String → Option Nat
  robotWxid : Option String
  robotNickname : Option String

/-- State produced by `start()`: robot identity fetched best-effort, every
initially resolved contact seeded with the current wall-clock time `now`
(seconds), empty seen-set. -/
def startState (now : Nat) (initialContacts : List String)
    (robotWxid robotNickname : Option String) : PollState :=
  { seen := []
  , cursors := fun c => if initialContacts.contains c then some now else none
  , robotWxid := robotWxid
  , robotNickname := robotNickname }

/-- One step of the dedup-and-cursor filter inside `poll`. Mirrors the JS
`items.filter` callback: a key already seen is skipped; otherwise the key is
added to the seen-set immediately, and the item is kept only when its
creation time is strictly newer than the cursor. -/
def filterStep (contactId : String) (cursor : Nat) :
    List MsgKey × List WeChatChatHistoryItem → WeChatChatHistoryItem →
    List MsgKey × List WeChatChatHistoryItem
  | (seen, acc), item =>
    let key := msgKey contactId item
    if key ∈ seen then (seen, acc)
    else
      let seen1 := seen ++ [key]
      if item.created_at ≤ cursor then (seen1, acc) else (seen1, acc ++ [item])

/-- The full `items.filter(...)` pass of `poll` for one contact: returns the
updated seen-set and the filtered batch (still newest-first page order). -/
def runFilter (contactId : String) (cursor : Nat) (seen : List MsgKey)
    (items : List WeChatChatHistoryItem) :
    List MsgKey × List WeChatChatHistoryItem :=
  items.foldl (filterStep contactId cursor) (seen, [])

/-- Emission guard of the per-item loop in `poll`: skip robot-originated
items, items sent by the robot wxid (only when a non-empty robot wxid is
known, matching JS truthiness of `this.robotWxid`), recalled items, and
non-text items (type 1 is text). -/
def shouldEmit (st : PollState) (item : WeChatChatHistoryItem) : Bool :=
  !(item.message_source == "robot")
  && !(match st.robotWxid with
       | some w => !(w == "") && item.sender_wxid == w
       | none => false)
  && !item.is_recalled
  && (item.type == 1)

/-- Conversion of a history item to an inbound message
(`convertToInboundMessage`). -/
def convertToInboundMessage (st : PollState) (item : WeChatChatHistoryItem)
    (contactId : String) : WeChatInboundMessage :=
  let isChatRoom := item.is_chat_room || strEndsWith contactId "@chatroom"
  let content := item.content
  let displayContent := item.display_full_content
  let atMe1 := if !item.is_atme && strIncludes displayContent "@了你" then true
               else item.is_atme
  let atMe2 :=
    if !atMe1 && (match st.robotNickname with
                  | some n => !(n == "")
                  | none => false) && !(content == "") then
      strIncludes content ("@" ++ st.robotNickname.getD "")
    else atMe1
  { id := contactId ++ ":" ++ toString item.msg_id
  , msgId := item.msg_id
  , fromId := if isChatRoom then contactId else item.sender_wxid
  , senderWxid := item.sender_wxid
  , senderNickname := item.sender_nickname
  , toWxid := item.to_wxid
  , body := if content == "" then displayContent else content
  , timestamp := item.created_at * 1000
  , chatType := if isChatRoom then "group" else "direct"
  , chatId := contactId
  , isAtMe := atMe2
  , isRecalled := item.is_recalled
  , messageType := item.type
  , attachmentUrl := item.attachment_url }

/-- Maximum creation time of a page, `Math.max(...items.map(created_at))`;
the source only evaluates this on non-empty pages, where folding from 0
agrees with the spread maximum over natural timestamps. -/
def maxCreatedAt (items : List WeChatChatHistoryItem) : Nat :=
  items.foldl (fun a item => max a item.created_at) 0

/-- Processing of one contact inside one `poll` cycle: run the
dedup-and-cursor filter, reverse the batch to oldest-first, emit the items
that pass the skip checks, and advance the cursor to the maximum creation
time of the raw page when the page is non-empty. -/
def pollContact (st : PollState) (contactId : String)
    (items : List WeChatChatHistoryItem) :
    PollState × List WeChatInboundMessage :=
  let cursor := (st.cursors contactId).getD 0
  let r := runFilter contactId cursor st.seen items
  let newMessages := r.2.reverse
  let emitted := (newMessages.filter (shouldEmit st)).map
    (fun item => convertToInboundMessage st item contactId)
  let cursors1 := if items.isEmpty then st.cursors
    else fun c => if c = contactId then some (maxCreatedAt items) else st.cursors c
  ({ st with seen := r.1, cursors := cursors1 }, emitted)

/-- Loop of `poll` over the resolved contacts starting from an accumulated
state and message list. -/
def pollContactsFrom (acc : PollState × List WeChatInboundMessage)
    (pages : List (String × List WeChatChatHistoryItem)) :
    PollState × List WeChatInboundMessage :=
  pages.foldl
    (fun acc page =>
      let r := pollContact acc.1 page.1 page.2
      (r.1, acc.2 ++ r.2))
    acc

/-- Loop of `poll` over the resolved contacts, each paired with its fetched
history page. A contact whose fetch failed behaves exactly like an empty
page (the catch block skips the body). -/
def pollContacts (st : PollState)
    (pages : List (String × List WeChatChatHistoryItem)) :
    PollState × List WeChatInboundMessage :=
  pollContactsFrom (st, []) pages

/-- Seen-set cleanup at the end of `poll`: when more than 10000 keys are
held, the first 5000 in insertion order are deleted. -/
def evictSeen (seen : List MsgKey) : List MsgKey :=
  if seen.length > 10000 then seen.drop 5000 else seen

/-- One full `poll` cycle. When the resolved contact list is empty the
method returns immediately (before the cleanup step); otherwise every
contact is processed in order and then the seen-set cleanup runs. -/
def poll (st : PollState)
    (pages : List (String × List WeChatChatHistoryItem)) :
    PollState × List WeChatInboundMessage :=
  if pages.isEmpty then (st, [])
  else
    let r := pollContacts st pages
    ({ r.1 with seen := evictSeen r.1.seen }, r.2)

/-- Sequence of cycles starting from an accumulated state and message
list. -/
def pollRunFrom (acc : PollState × List WeChatInboundMessage)
    (cycles : List (List (String × List WeChatChatHistoryItem))) :
    PollState × List WeChatInboundMessage :=
  cycles.foldl
    (fun acc cycle =>
      let r := poll acc.1 cycle
      (r.1, acc.2 ++ r.2))
    acc

/-- Whole-lifetime run of a poller: a sequence of cycles, each a list of
per-contact fetched pages, starting from a given state; returns the final
state and every message delivered to the callback, in delivery order. -/
def pollRun (st : PollState)
    (cycles : List (List (String × List WeChatChatHistoryItem))) :
    PollState × List WeChatInboundMessage :=
  pollRunFrom (st, []) cycles

/-- Number of history items in the pages of one cycle. -/
def pageItems (pages : List (String × List WeChatChatHistoryItem)) : Nat :=
  (pages.map (fun page => page.2.length)).sum

/-- Total number of history items processed over a whole run. -/
def totalItems (cycles : List (List (String × List WeChatChatHistoryItem))) : Nat :=
  (cycles.map pageItems).sum

end WeChatMessagePoller

/-! ## Token resolution (token.ts `resolveWeChatToken`) -/

/-- Account id used when none is given; the SDK constant
`DEFAULT_ACCOUNT_ID`. -/
def DEFAULT_ACCOUNT_ID : String := "default"

/-- Per-account entry of `channels.wechat.accounts`; only the two fields read
by `resolveWeChatToken` are modelled. -/
structure WeChatAccountTokenConfig where
  apiToken : Option String := none
  tokenFile : Option String := none
deriving DecidableEq, Repr

/-- Base `channels.wechat` configuration as read by `resolveWeChatToken`:
base-level token fields plus the optional named account map (an association
list here; nesting below the accessed depth is omitted because the source
never reads it). -/
structure WeChatTokenConfig where
  apiToken : Option String := none
  tokenFile : Option String := none
  accounts : Option (List (String × WeChatAccountTokenConfig)) := none
deriving DecidableEq, Repr

/-- Result of token resolution; `source` is one of "env", "config",
"configFile", "none" as in the source union type. -/
structure WeChatTokenResolution where
  token : String
  source : String
deriving DecidableEq, Repr

/-- JS `value?.trim()` followed by a truthiness test: returns the trimmed
string when it is non-empty. -/
def nonEmptyTrim (s : Option String) : Option String :=
  match s with
  | some v => let t := strTrim v; if t == "" then none else some t
  | none => none

/-- Reading a token file: `readFileSync(tokenFile, "utf8").trim()`, with read
failures swallowed (`fs` returns `none` on failure) and empty results
discarded. -/
def tryTokenFile (fs : String → Option String) (tokenFile : Option String) :
    Option String :=
  match nonEmptyTrim tokenFile with
  | some tf =>
    match fs tf with
    | some content => let t := strTrim content; if t == "" then none else some t
    | none => none
  | none => none

/-- Shallow embedding of `resolveWeChatToken`. The file system is the
function `fs` (`none` models a read failure) and `env` is the value of the
`WECHAT_API_TOKEN` environment variable. Faithful to the source: the
per-account entry is looked up only when the resolved account id differs
from `DEFAULT_ACCOUNT_ID`; the base-level token, base-level token file and
the environment variable are consulted only for the default account. -/
def resolveWeChatToken (config : Option WeChatTokenConfig)
    (accountId : Option String) (fs : String → Option String)
    (env : Option String) : WeChatTokenResolution :=
  let resolvedAccountId := accountId.getD DEFAULT_ACCOUNT_ID
  let isDefaultAccount := resolvedAccountId = DEFAULT_ACCOUNT_ID
  let accountConfig : Option WeChatAccountTokenConfig :=
    if resolvedAccountId ≠ DEFAULT_ACCOUNT_ID then
      config.bind (fun c => c.accounts.bind
        (fun accs => (accs.lookup resolvedAccountId)))
    else none
  let accountResult : Option WeChatTokenResolution :=
    accountConfig.bind (fun ac =>
      match nonEmptyTrim ac.apiToken with
      | some t => some { token := t, source := "config" }
      | none =>
        (tryTokenFile fs ac.tokenFile).map
          (fun t => { token := t, source := "configFile" }))
  match accountResult with
  | some r => r
  | none =>
    if isDefaultAccount then
      match nonEmptyTrim (config.bind (fun c => c.apiToken)) with
      | some t => { token := t, source := "config" }
      | none =>
        match tryTokenFile fs (config.bind (fun c => c.tokenFile)) with
        | some t => { token := t, source := "configFile" }
        | none =>
          match nonEmptyTrim env with
          | some t => { token := t, source := "env" }
          | none => { token := "", source := "none" }
    else { token := "", source := "none" }

/-- Rendering of claim C5: the resolution order exactly as the claim words
it, per-account apiToken first and per-account tokenFile second for every
account (the default account included), then base token, base token file and
environment for the default account only. Written from the claim, to be
compared with `resolveWeChatToken`. -/
def resolveWeChatTokenClaimed (config : Option WeChatTokenConfig)
    (accountId : Option String) (fs : String → Option String)
    (env : Option String) : WeChatTokenResolution :=
  let resolvedAccountId := accountId.getD DEFAULT_ACCOUNT_ID
  let accountConfig : Option WeChatAccountTokenConfig :=
    config.bind (fun c => c.accounts.bind
      (fun accs => (accs.lookup resolvedAccountId)))
  let accountResult : Option WeChatTokenResolution :=
    accountConfig.bind (fun ac =>
      match nonEmptyTrim ac.apiToken with
      | some t => some { token := t, source := "config" }
      | none =>
        (tryTokenFile fs ac.tokenFile).map
          (fun t => { token := t, source := "configFile" }))
  match accountResult with
  | some r => r
  | none =>
    if resolvedAccountId = DEFAULT_ACCOUNT_ID then
      match nonEmptyTrim (config.bind (fun c => c.apiToken)) with
      | some t => { token := t, source := "config" }
      | none =>
        match tryTokenFile fs (config.bind (fun c => c.tokenFile)) with
        | some t => { token := t, source := "configFile" }
        | none =>
          match nonEmptyTrim env with
          | some t => { token := t, source := "env" }
          | none => { token := "", source := "none" }
    else { token := "", source := "none" }

/-! ## Inbound dispatcher (inbound.ts `handleWeChatInboundMessage`) -/

/-- Argument record of the host `buildPairingReply` call (the `cfg` and
`channel` fields are fixed by the call site and omitted). -/
structure PairingReplyArgs where
  senderId : String
  senderName : String
deriving DecidableEq, Repr

/-- Pending pairing request registered with the host
(`upsertPairingRequest`); `channel` is always "wechat" at this call site. -/
structure PairingRequest where
  channel : String
  accountId : String
  senderId : String
  senderName : Option String
  timestamp : Nat
deriving DecidableEq, Repr

/-- Argument record of the host `resolveAgentRoute` call. -/
structure RouteArgs where
  accountId : String
  peerKind : String
  peerId : String
deriving DecidableEq, Repr

/-- Route returned by the host. -/
structure AgentRoute where
  sessionKey : String
  accountId : String
deriving DecidableEq, Repr

/-- Context payload handed to `finalizeInboundContext` and then to
`dispatchReplyFromConfig`. Field names follow the source object literal. -/
structure InboundContext where
  Body : String
  RawBody : String
  CommandBody : String
  From : String
  To : String
  SessionKey : String
  AccountId : String
  ChatType : String
  ConversationLabel : String
  GroupSubject : Option String
  SenderName : String
  SenderId : String
  Provider : String
  Surface : String
  MessageSid : String
  Timestamp : Nat
  WasMentioned : Bool
  CommandAuthorized : Bool
  OriginatingChannel : String
  OriginatingTo : String
  UserTrustLevel : String
  AllowedCapabilities : List String
deriving DecidableEq, Repr

/-- Observable actions of one `handleWeChatInboundMessage` invocation, in
program order: registering a pairing request, sending a WeChat message
(`sendMessageWeChat`), recording channel activity, and handing a context to
the reply-dispatch pipeline (`dispatchReplyFromConfig`). -/
inductive WeChatEffect where
  | pairingUpsert (req : PairingRequest)
  | sendText (toWxid : String) (text : String)
  | activityRecord
  | dispatchReply (ctx : InboundContext) (replyTo : String)
deriving DecidableEq, Repr

/-- Dependencies of the handler. Optional configuration fields keep their
source defaults (applied in the body, as in the destructuring pattern).
Host-runtime services are modelled as function fields. The source field
`safetyPrefix` is rendered `safetyHint` (the source name is rejected by the
verification toolchain). -/
structure WeChatInboundHandlerDeps where
  accountId : String
  baseUrl : String
  apiToken : String
  robotId : Nat
  allowFrom : Option (List String) := none
  dmPolicy : Option String := none
  groupPolicy : Option String := none
  commandAllowFrom : Option (List String) := none
  safetyHint : Option String := none
  requireMention : Option Bool := none
  /-- host `runtime.channel.pairing.buildPairingReply`; `none` models a
  falsy reply -/
  buildPairingReply : PairingReplyArgs → Option String
  /-- host `runtime.channel.routing.resolveAgentRoute` -/
  resolveAgentRoute : RouteArgs → AgentRoute
  /-- host `runtime.channel.reply.formatInboundEnvelope` composed with
  `resolveEnvelopeFormatOptions` -/
  formatInboundEnvelope : String → String → Nat → String → String → String
  /-- host `runtime.channel.reply.finalizeInboundContext`; `none` models a
  falsy payload -/
  finalizeInboundContext : InboundContext → Option InboundContext
  /-- `Date.now()` at the upsert call -/
  now : Nat

/-- Normalization applied to each allow-list entry: strip a leading
`wechat:` or `wx:` tag case-insensitively, then lowercase
(`entry.replace(/^(wechat|wx):/i, "").toLowerCase()`). -/
def normalizeAllowEntry (entry : String) : String :=
  let lower := strToLower entry
  let stripped :=
    if strStartsWith lower "wechat:" then strDrop entry 7
    else if strStartsWith lower "wx:" then strDrop entry 3
    else entry
  strToLower stripped

/-- Normalized allow-list of the handler. -/
def normalizedAllowFrom (allowFrom : List String) : List String :=
  allowFrom.map normalizeAllowEntry

/-- Policy chosen per chat kind: `groupPolicy` (default "open") for group
messages, `dmPolicy` (default "pairing") for direct messages. -/
def effectivePolicy (msg : WeChatInboundMessage)
    (deps : WeChatInboundHandlerDeps) : String :=
  if msg.chatType == "group" then (deps.groupPolicy.getD "open")
  else (deps.dmPolicy.getD "pairing")

/-- Default safety hint prepended for guest-tier senders. -/
def defaultSafetyHint : String :=
  "[系统安全提示：此用户为访客(guest)，禁止执行任何系统命令、文件操作、代码执行或工具调用，只进行普通对话]\n\n"

/-- Shallow embedding of `handleWeChatInboundMessage`, returning the list of
observable actions in program order. -/
def handleWeChatInboundMessage (msg : WeChatInboundMessage)
    (deps : WeChatInboundHandlerDeps) : List WeChatEffect :=
  let allowFrom := deps.allowFrom.getD []
  let requireMention := deps.requireMention.getD true
  if msg.chatType == "group" && requireMention && !msg.isAtMe then []
  else
    let checkId := strToLower msg.senderWxid
    let normAllow := normalizedAllowFrom allowFrom
    let policy := effectivePolicy msg deps
    let isAllowed := policy == "open" || normAllow.contains checkId
    let isTrusted := normAllow.contains checkId
    let cmdAllowList :=
      (deps.commandAllowFrom.getD allowFrom).map normalizeAllowEntry
    let isCommandAuthorized := cmdAllowList.contains checkId
    if !isAllowed && !(policy == "pairing") then []
    else if policy == "pairing" && !normAllow.contains checkId then
      let target := if msg.chatType == "group" then msg.chatId else msg.senderWxid
      let senderName :=
        if msg.chatType == "group" then "Group " ++ msg.chatId
        else msg.senderNickname.getD msg.senderWxid
      match deps.buildPairingReply { senderId := target, senderName := senderName } with
      | some reply =>
        if reply == "" then []
        else
          [ WeChatEffect.pairingUpsert
              { channel := "wechat"
              , accountId := deps.accountId
              , senderId := target
              , senderName :=
                  if msg.chatType == "group" then some ("Group " ++ msg.chatId)
                  else msg.senderNickname
              , timestamp := deps.now }
          , WeChatEffect.sendText target reply ]
      | none => []
    else
      let route := deps.resolveAgentRoute
        { accountId := deps.accountId
        , peerKind := if msg.chatType == "group" then "group" else "dm"
        , peerId := if msg.chatType == "group" then msg.chatId else msg.senderWxid }
      let fromLabel := msg.senderNickname.getD msg.senderWxid
      let effectiveSafetyHint :=
        if isTrusted then "" else (deps.safetyHint.getD defaultSafetyHint)
      let messageBody := effectiveSafetyHint ++ msg.body
      let body := deps.formatInboundEnvelope fromLabel messageBody msg.timestamp
        (if msg.chatType == "group" then "group" else "direct") msg.senderWxid
      let replyTo := if msg.chatType == "group" then msg.chatId else msg.senderWxid
      let wechatTo :=
        if msg.chatType == "group" then "group:" ++ msg.chatId
        else "wechat:" ++ msg.senderWxid
      let ctx : InboundContext :=
        { Body := body
        , RawBody := msg.body
        , CommandBody := msg.body
        , From := wechatTo
        , To := wechatTo
        , SessionKey := route.sessionKey
        , AccountId := route.accountId
        , ChatType := if msg.chatType == "group" then "group" else "direct"
        , ConversationLabel := fromLabel
        , GroupSubject := if msg.chatType == "group" then some msg.chatId else none
        , SenderName := msg.senderNickname.getD msg.senderWxid
        , SenderId := msg.senderWxid
        , Provider := "wechat"
        , Surface := "wechat"
        , MessageSid := msg.id
        , Timestamp := msg.timestamp
        , WasMentioned := msg.isAtMe
        , CommandAuthorized := isCommandAuthorized
        , OriginatingChannel := "wechat"
        , OriginatingTo := wechatTo
        , UserTrustLevel := if isTrusted then "trusted" else "guest"
        , AllowedCapabilities :=
            if isTrusted then ["chat", "tools", "files", "commands"] else ["chat"] }
      match deps.finalizeInboundContext ctx with
      | none => [WeChatEffect.activityRecord]
      | some payload =>
        [WeChatEffect.activityRecord, WeChatEffect.dispatchReply payload replyTo]
    
/-- Number of pairing-request registrations in an effect trace. -/
def countPairingUpserts (effects : List WeChatEffect) : Nat :=
  (effects.filter (fun e => match e with
    | WeChatEffect.pairingUpsert _ => true
    | _ => false)).length

/-- Number of outbound sends in an effect trace. -/
def countSends (effects : List WeChatEffect) : Nat :=
  (effects.filter (fun e => match e with
    | WeChatEffect.sendText _ _ => true
    | _ => false)).length

/-- Whether a trace reaches the reply-dispatch pipeline. -/
def hasDispatch (effects : List WeChatEffect) : Bool :=
  effects.any (fun e => match e with
    | WeChatEffect.dispatchReply _ _ => true
    | _ => false)

/-- Whether a trace records channel activity. -/
def hasActivity (effects : List WeChatEffect) : Bool :=
  effects.any (fun e => match e with
    | WeChatEffect.activityRecord => true
    | _ => false)

/-! ## Outbound chunker (channel.ts `wechatPlugin.outbound.chunker`) -/

namespace Chunker

/-- Whitespace class used by the chunker loop for the separator test
(`/\s/.test(...)`) and the `trimStart` / `trimEnd` calls; on the ASCII range
handled here it agrees with the JS classes. -/
def isWs (c : Char) : Bool := c.isWhitespace

/-- JS `String.prototype.trimStart` over characters. -/
def trimStart (l : List Char) : List Char := l.dropWhile isWs

/-- JS `String.prototype.trimEnd` over characters. -/
def trimEnd (l : List Char) : List Char := (l.reverse.dropWhile isWs).reverse

/-- JS `String.prototype.lastIndexOf` for a single character: the greatest
index holding `c`, as an integer, `-1` when absent. -/
def lastIndexOfAux (c : Char) : List Char → Nat → Int → Int
  | [], _, best => best
  | x :: xs, i, best => lastIndexOfAux c xs (i + 1) (if x == c then (i : Int) else best)

/-- Entry point of the last-index search. -/
def lastIndexOf (l : List Char) (c : Char) : Int :=
  lastIndexOfAux c l 0 (-1)

/-- Loop body of the chunker `while (remaining.length > limit)`. The `fuel`
argument only bounds the recursion depth; each iteration shortens
`remaining` by at least one character whenever `0 < limit`, so any
`fuel ≥ remaining.length` makes the bound unreachable. -/
def chunkGo (limit : Nat) : Nat → List Char → List (List Char) → List (List Char)
  | 0, _, chunks => chunks
  | fuel + 1, remaining, chunks =>
    if remaining.length > limit then
      let window := remaining.take limit
      let lastNewline := lastIndexOf window '\n'
      let lastSpace := lastIndexOf window ' '
      let breakIdx0 : Int := if lastNewline > 0 then lastNewline else lastSpace
      let breakIdx : Nat := if breakIdx0 ≤ 0 then limit else breakIdx0.toNat
      let rawChunk := remaining.take breakIdx
      let chunk := trimEnd rawChunk
      let chunks1 := if chunk.length > 0 then chunks ++ [chunk] else chunks
      let brokeOnSeparator :=
        decide (breakIdx < remaining.length) &&
          (match remaining.get? breakIdx with
           | some c => isWs c
           | none => false)
      let nextStart :=
        min remaining.length (breakIdx + (if brokeOnSeparator then 1 else 0))
      chunkGo limit fuel (trimStart (remaining.drop nextStart)) chunks1
    else if remaining.length > 0 then chunks ++ [remaining] else chunks

/-- Shallow embedding of the outbound chunker. Text is a character list; a
JS `limit <= 0` is modelled by `limit = 0` (timestamps of the plugin always
pass the positive constant 2048). -/
def chunker (text : List Char) (limit : Nat) : List (List Char) :=
  if text.isEmpty then []
  else if limit = 0 || text.length ≤ limit then [text]
  else chunkGo limit text.length text []

/-- Reference splitter used to state what the loop does on whitespace-free
text: cut a non-empty character list every `limit` characters (the first
argument of the recursion is fuel). -/
def splitChunks (limit : Nat) : Nat → List Char → List (List Char)
  | 0, l => [l]
  | fuel + 1, l =>
    if l.length > limit then l.take limit :: splitChunks limit fuel (l.drop limit)
    else [l]

end Chunker

/-! ## Backend API envelope handling (api.ts `callApi`) -/

/-- Response envelope `{code, message, data}` of every backend call
(types.ts `WeChatApiResponse`). -/
structure WeChatApiResponse (T : Type) where
  code : Int
  message : Option String
  data : Option T
deriving DecidableEq, Repr

/-- Data carried by a thrown `WeChatApiError`: the message, the optional
backend code and the optional raw response body. -/
structure WeChatApiErrorData where
  message : String
  code : Option Int
  response : Option String
deriving DecidableEq, Repr

/-- Shallow embedding of the envelope check of `callApi`, given a response
body that parsed as an envelope. `serialize` stands for `JSON.stringify`;
`transportStatus` is the HTTP status of the response, which the source never
reads. A non-200 envelope code raises `WeChatApiError` with the backend
message (or a generic fallback naming the endpoint), the backend code, and
the serialized body; a 200 code returns the envelope unchanged. -/
def callApi {T : Type} (endpoint : String)
    (serialize : WeChatApiResponse T → String) (_transportStatus : Nat)
    (resp : WeChatApiResponse T) :
    Except WeChatApiErrorData (WeChatApiResponse T) :=
  if resp.code ≠ 200 then
    Except.error
      { message := resp.message.getD ("API error: " ++ endpoint)
      , code := some resp.code
      , response := some (serialize resp) }
  else Except.ok resp

/-! ## Concrete fixtures used by witnesses and counterexamples -/

/-- Plain not-yet-seen text item: type 1, not robot-originated, not
recalled. -/
def mkTextItem (msgId ts : Nat) : WeChatChatHistoryItem :=
  { msg_id := msgId
  , created_at := ts
  , message_source := "user"
  , sender_wxid := "u1"
  , sender_nickname := none
  , to_wxid := "robot"
  , content := "hello"
  , display_full_content := ""
  , is_atme := false
  , is_recalled := false
  , is_chat_room := false
  , type := 1
  , attachment_url := none }

/-- Page of n pairwise distinct fresh text items, in ascending msg id order
with creation times 1..n. -/
def freshPage (n : Nat) : List WeChatChatHistoryItem :=
  (List.range n).map (fun i => mkTextItem i (i + 1))

/-- Page of 10001 pairwise distinct fresh text items for contact "a";
large enough to trip the seen-set cleanup. -/
def cexC1Page : List WeChatChatHistoryItem := freshPage 10001

/-- Two cycles: the large page above, then a page re-presenting message 0
(whose key was evicted by the cleanup) with a fresh creation time. -/
def cexC1Cycles : List (List (String × List WeChatChatHistoryItem)) :=
  [[("a", cexC1Page)], [("a", [mkTextItem 0 999999])]]

/-- Poller state reached after one cycle over a page of 15001 fresh items:
after one cleanup the seen-set still holds 10001 keys, strictly more than
the high-water mark. -/
def cexC4St : WeChatMessagePoller.PollState :=
  (WeChatMessagePoller.poll (WeChatMessagePoller.startState 0 [] none none)
    [("a", freshPage 15001)]).1

/-- Configuration whose accounts map carries an entry for the default
account id with a populated apiToken, while the base level and the
environment are empty. -/
def cexC5Config : WeChatTokenConfig :=
  { apiToken := none
  , tokenFile := none
  , accounts := some [(DEFAULT_ACCOUNT_ID,
      { apiToken := some "acct-token", tokenFile := none })] }

/-- Group message without an at-mention. -/
def cexC6Msg : WeChatInboundMessage :=
  { id := "room1@chatroom:3"
  , msgId := 3
  , fromId := "room1@chatroom"
  , senderWxid := "u2"
  , senderNickname := some "Sender"
  , toWxid := "robot"
  , body := "hello"
  , timestamp := 1000
  , chatType := "group"
  , chatId := "room1@chatroom"
  , isAtMe := false
  , isRecalled := false
  , messageType := 1
  , attachmentUrl := none }

/-- Handler dependencies with a permissive configuration. -/
def cexC6DepsA : WeChatInboundHandlerDeps :=
  { accountId := "default"
  , baseUrl := "http://localhost:9000"
  , apiToken := "t"
  , robotId := 1
  , allowFrom := some ["wechat:U2", "other"]
  , dmPolicy := some "open"
  , groupPolicy := some "open"
  , commandAllowFrom := some ["u2"]
  , safetyHint := none
  , requireMention := some true
  , buildPairingReply := fun _ => some "pair request"
  , resolveAgentRoute := fun _ => { sessionKey := "s1", accountId := "default" }
  , formatInboundEnvelope := fun _ b _ _ _ => b
  , finalizeInboundContext := fun c => some c
  , now := 7 }

/-- Handler dependencies with a restrictive configuration: different
allow-list, policies and host services than `cexC6DepsA`. -/
def cexC6DepsB : WeChatInboundHandlerDeps :=
  { accountId := "acc2"
  , baseUrl := "http://example.invalid"
  , apiToken := "t2"
  , robotId := 2
  , allowFrom := some []
  , dmPolicy := some "disabled"
  , groupPolicy := some "pairing"
  , commandAllowFrom := none
  , safetyHint := some "hint"
  , requireMention := none
  , buildPairingReply := fun _ => none
  , resolveAgentRoute := fun _ => { sessionKey := "s2", accountId := "acc2" }
  , formatInboundEnvelope := fun f _ _ _ _ => f
  , finalizeInboundContext := fun _ => none
  , now := 9 }

/-- Direct message from a sender that is not on the allow-list. -/
def cexC7Msg : WeChatInboundMessage :=
  { id := "u2:9"
  , msgId := 9
  , fromId := "u2"
  , senderWxid := "u2"
  , senderNickname := none
  , toWxid := "robot"
  , body := "hi"
  , timestamp := 0
  , chatType := "direct"
  , chatId := "u2"
  , isAtMe := false
  , isRecalled := false
  , messageType := 1
  , attachmentUrl := none }

/-- Dependencies under dm policy "pairing" whose host declines to build a
pairing reply. -/
def cexC7Deps : WeChatInboundHandlerDeps :=
  { accountId := "default"
  , baseUrl := "http://localhost:9000"
  , apiToken := "t"
  , robotId := 1
  , allowFrom := some []
  , dmPolicy := some "pairing"
  , groupPolicy := none
  , commandAllowFrom := none
  , safetyHint := none
  , requireMention := none
  , buildPairingReply := fun _ => none
  , resolveAgentRoute := fun _ => { sessionKey := "s", accountId := "default" }
  , formatInboundEnvelope := fun _ b _ _ _ => b
  , finalizeInboundContext := fun c => some c
  , now := 0 }

/-- Dependencies under dm policy "pairing" whose host builds the pairing
reply "pair me". -/
def cexC7DepsW : WeChatInboundHandlerDeps :=
  { accountId := "default"
  , baseUrl := "http://localhost:9000"
  , apiToken := "t"
  , robotId := 1
  , allowFrom := some []
  , dmPolicy := some "pairing"
  , groupPolicy := none
  , commandAllowFrom := none
  , safetyHint := none
  , requireMention := none
  , buildPairingReply := fun _ => some "pair me"
  , resolveAgentRoute := fun _ => { sessionKey := "s", accountId := "default" }
  , formatInboundEnvelope := fun _ b _ _ _ => b
  , finalizeInboundContext := fun c => some c
  , now := 0 }

/-! ## General lemmas about the poller -/

namespace WeChatMessagePoller

theorem inboundKey_convert (st : PollState) (item : WeChatChatHistoryItem)
    (c : String) :
    inboundKey (convertToInboundMessage st item c) = msgKey c item := rfl

theorem pollContact_robotWxid (st : PollState) (c : String)
    (items : List WeChatChatHistoryItem) :
    (pollContact st c items).1.robotWxid = st.robotWxid := rfl

theorem pollContact_seen (st : PollState) (c : String)
    (items : List WeChatChatHistoryItem) :
    (pollContact st c items).1.seen =
      (runFilter c ((st.cursors c).getD 0) st.seen items).1 := rfl

theorem pollContact_msgs (st : PollState) (c : String)
    (items : List WeChatChatHistoryItem) :
    (pollContact st c items).2 =
      (((runFilter c ((st.cursors c).getD 0) st.seen items).2.reverse.filter
          (shouldEmit st)).map
        (fun item => convertToInboundMessage st item c)) := rfl

theorem pollContact_cursors (st : PollState) (c : String)
    (items : List WeChatChatHistoryItem) :
    (pollContact st c items).1.cursors =
      (if items.isEmpty then st.cursors
       else fun x => if x = c then some (maxCreatedAt items) else st.cursors x) := rfl

theorem evictSeen_of_le (s : List MsgKey) (h : s.length ≤ 10000) :
    evictSeen s = s := by
  simp only [evictSeen, gt_iff_lt, ite_eq_right_iff]
  intro h2
  omega

theorem evictSeen_of_gt (s : List MsgKey) (h : 10000 < s.length) :
    evictSeen s = s.drop 5000 := by
  simp [evictSeen, h]

theorem poll_of_ne_nil (st : PollState)
    (pages : List (String × List WeChatChatHistoryItem)) (h : pages ≠ []) :
    poll st pages =
      ({ (pollContacts st pages).1 with
          seen := evictSeen (pollContacts st pages).1.seen },
       (pollContacts st pages).2) := by
  have : pages.isEmpty = false := by
    cases pages with
    | nil => exact absurd rfl h
    | cons p ps => rfl
  simp [poll, this]

theorem foldl_filterStep_fresh (c : String) (cursor : Nat) :
    ∀ (items : List WeChatChatHistoryItem) (seen : List MsgKey)
      (acc : List WeChatChatHistoryItem),
      (items.map (msgKey c)).Nodup →
      (∀ k ∈ items.map (msgKey c), k ∉ seen) →
      items.foldl (filterStep c cursor) (seen, acc) =
        (seen ++ items.map (msgKey c),
         acc ++ items.filter (fun it => decide (cursor < it.created_at)))
  | [], seen, acc, _, _ => by simp
  | item :: rest, seen, acc, hnd, hfr => by
    have hk : msgKey c item ∉ seen := hfr _ (by simp)
    have hnd2 : (rest.map (msgKey c)).Nodup := (List.nodup_cons.mp (by simpa using hnd)).2
    have hkrest : msgKey c item ∉ rest.map (msgKey c) :=
      (List.nodup_cons.mp (by simpa using hnd)).1
    have hfr2 : ∀ k ∈ rest.map (msgKey c), k ∉ seen ++ [msgKey c item] := by
      intro k hkm
      have h1 : k ∉ seen := hfr _ (by simp [hkm])
      have h2 : k ≠ msgKey c item := by
        intro he
        exact hkrest (he ▸ hkm)
      simp [h1, h2]
    by_cases hts : item.created_at ≤ cursor
    · have hstep : filterStep c cursor (seen, acc) item =
          (seen ++ [msgKey c item], acc) := by
        simp [filterStep, hk, hts]
      have hdec : (decide (cursor < item.created_at)) = false := by
        simp [Nat.not_lt.mpr hts]
      rw [List.foldl_cons, hstep, foldl_filterStep_fresh c cursor rest _ _ hnd2 hfr2]
      simp [hdec, List.append_assoc]
    · have hstep : filterStep c cursor (seen, acc) item =
          (seen ++ [msgKey c item], acc ++ [item]) := by
        simp [filterStep, hk, hts]
      have hdec : (decide (cursor < item.created_at)) = true := by
        simp [Nat.lt_of_not_le hts]
      rw [List.foldl_cons, hstep, foldl_filterStep_fresh c cursor rest _ _ hnd2 hfr2]
      simp [hdec, List.append_assoc]

theorem runFilter_fresh (c : String) (cursor : Nat) (seen : List MsgKey)
    (items : List WeChatChatHistoryItem)
    (hnd : (items.map (msgKey c)).Nodup)
    (hfr : ∀ k ∈ items.map (msgKey c), k ∉ seen) :
    runFilter c cursor seen items =
      (seen ++ items.map (msgKey c),
       items.filter (fun it => decide (cursor < it.created_at))) := by
  rw [runFilter, foldl_filterStep_fresh c cursor items seen [] hnd hfr]
  simp

theorem pollContact_fresh_seen (st : PollState) (c : String)
    (items : List WeChatChatHistoryItem)
    (hnd : (items.map (msgKey c)).Nodup)
    (hfr : ∀ k ∈ items.map (msgKey c), k ∉ st.seen) :
    (pollContact st c items).1.seen = st.seen ++ items.map (msgKey c) := by
  rw [pollContact_seen, runFilter_fresh _ _ _ _ hnd hfr]

theorem pollContact_fresh_msgs (st : PollState) (c : String)
    (items : List WeChatChatHistoryItem)
    (hnd : (items.map (msgKey c)).Nodup)
    (hfr : ∀ k ∈ items.map (msgKey c), k ∉ st.seen) :
    (pollContact st c items).2 =
      (((items.filter (fun it => decide ((st.cursors c).getD 0 < it.created_at))).reverse.filter
          (shouldEmit st)).map
        (fun item => convertToInboundMessage st item c)) := by
  rw [pollContact_msgs, runFilter_fresh _ _ _ _ hnd hfr]

theorem foldl_max_le :
    ∀ (items : List WeChatChatHistoryItem) (a b : Nat), a ≤ b →
      (∀ it ∈ items, it.created_at ≤ b) →
      items.foldl (fun x it => max x it.created_at) a ≤ b
  | [], a, b, hab, _ => by simpa using hab
  | item :: rest, a, b, hab, hall => by
    rw [List.foldl_cons]
    exact foldl_max_le rest _ b
      (max_le hab (hall item (by simp)))
      (fun it hit => hall it (by simp [hit]))

theorem maxCreatedAt_le (items : List WeChatChatHistoryItem) (b : Nat)
    (hall : ∀ it ∈ items, it.created_at ≤ b) : maxCreatedAt items ≤ b :=
  foldl_max_le items 0 b (Nat.zero_le b) hall

theorem le_foldl_max :
    ∀ (items : List WeChatChatHistoryItem) (a : Nat),
      a ≤ items.foldl (fun x it => max x it.created_at) a
  | [], a => le_refl a
  | item :: rest, a => by
    rw [List.foldl_cons]
    exact le_trans (le_max_left a item.created_at) (le_foldl_max rest _)

theorem created_le_foldl_max (it : WeChatChatHistoryItem) :
    ∀ (items : List WeChatChatHistoryItem) (a : Nat), it ∈ items →
      it.created_at ≤ items.foldl (fun x i => max x i.created_at) a
  | [], _, h => absurd h (List.not_mem_nil it)
  | x :: rest, a, h => by
    rw [List.foldl_cons]
    rcases List.mem_cons.mp h with he | hr
    · exact le_trans (he ▸ le_max_right a x.created_at) (le_foldl_max rest _)
    · exact created_le_foldl_max it rest _ hr

theorem le_maxCreatedAt (items : List WeChatChatHistoryItem)
    (it : WeChatChatHistoryItem) (h : it ∈ items) :
    it.created_at ≤ maxCreatedAt items :=
  created_le_foldl_max it items 0 h

theorem pollContactsFrom_cons (acc : PollState × List WeChatInboundMessage)
    (p : String × List WeChatChatHistoryItem)
    (ps : List (String × List WeChatChatHistoryItem)) :
    pollContactsFrom acc (p :: ps) =
      pollContactsFrom
        ((pollContact acc.1 p.1 p.2).1, acc.2 ++ (pollContact acc.1 p.1 p.2).2) ps := rfl

theorem pollContactsFrom_cons2 (st : PollState) (ms : List WeChatInboundMessage)
    (p : String × List WeChatChatHistoryItem)
    (ps : List (String × List WeChatChatHistoryItem)) :
    pollContactsFrom (st, ms) (p :: ps) =
      pollContactsFrom
        ((pollContact st p.1 p.2).1, ms ++ (pollContact st p.1 p.2).2) ps := rfl

theorem pollContactsFrom_split :
    ∀ (pages : List (String × List WeChatChatHistoryItem)) (st : PollState)
      (ms : List WeChatInboundMessage),
      pollContactsFrom (st, ms) pages =
        ((pollContacts st pages).1, ms ++ (pollContacts st pages).2)
  | [], st, ms => by simp [pollContactsFrom, pollContacts]
  | p :: ps, st, ms => by
    have h3 : pollContacts st (p :: ps) =
        pollContactsFrom
          ((pollContact st p.1 p.2).1, (pollContact st p.1 p.2).2) ps := rfl
    rw [pollContactsFrom_cons2, pollContactsFrom_split ps _ _, h3,
      pollContactsFrom_split ps _ _]
    simp

theorem pollContacts_cons (st : PollState)
    (p : String × List WeChatChatHistoryItem)
    (ps : List (String × List WeChatChatHistoryItem)) :
    pollContacts st (p :: ps) =
      ((pollContacts (pollContact st p.1 p.2).1 ps).1,
       (pollContact st p.1 p.2).2 ++ (pollContacts (pollContact st p.1 p.2).1 ps).2) := by
  rw [pollContacts, pollContactsFrom_cons]
  simpa using pollContactsFrom_split ps (pollContact st p.1 p.2).1 _

theorem pollContacts_robotWxid :
    ∀ (pages : List (String × List WeChatChatHistoryItem)) (st : PollState),
      (pollContacts st pages).1.robotWxid = st.robotWxid
  | [], st => rfl
  | p :: ps, st => by
    rw [pollContacts_cons]
    simpa using pollContacts_robotWxid ps (pollContact st p.1 p.2).1

theorem poll_robotWxid (st : PollState)
    (pages : List (String × List WeChatChatHistoryItem)) :
    (poll st pages).1.robotWxid = st.robotWxid := by
  by_cases h : pages = []
  · subst h; rfl
  · rw [poll_of_ne_nil st pages h]
    exact pollContacts_robotWxid pages st

theorem pollRunFrom_cons (acc : PollState × List WeChatInboundMessage)
    (cy : List (String × List WeChatChatHistoryItem))
    (cys : List (List (String × List WeChatChatHistoryItem))) :
    pollRunFrom acc (cy :: cys) =
      pollRunFrom ((poll acc.1 cy).1, acc.2 ++ (poll acc.1 cy).2) cys := rfl

theorem pollRunFrom_cons2 (st : PollState) (ms : List WeChatInboundMessage)
    (cy : List (String × List WeChatChatHistoryItem))
    (cys : List (List (String × List WeChatChatHistoryItem))) :
    pollRunFrom (st, ms) (cy :: cys) =
      pollRunFrom ((poll st cy).1, ms ++ (poll st cy).2) cys := rfl

theorem pollRunFrom_split :
    ∀ (cycles : List (List (String × List WeChatChatHistoryItem)))
      (st : PollState) (ms : List WeChatInboundMessage),
      pollRunFrom (st, ms) cycles =
        ((pollRun st cycles).1, ms ++ (pollRun st cycles).2)
  | [], st, ms => by simp [pollRunFrom, pollRun]
  | cy :: cys, st, ms => by
    have h3 : pollRun st (cy :: cys) =
        pollRunFrom ((poll st cy).1, (poll st cy).2) cys := rfl
    rw [pollRunFrom_cons2, pollRunFrom_split cys _ _, h3,
      pollRunFrom_split cys _ _]
    simp

theorem pollRun_cons (st : PollState)
    (cy : List (String × List WeChatChatHistoryItem))
    (cys : List (List (String × List WeChatChatHistoryItem))) :
    pollRun st (cy :: cys) =
      ((pollRun (poll st cy).1 cys).1,
       (poll st cy).2 ++ (pollRun (poll st cy).1 cys).2) := by
  rw [pollRun, pollRunFrom_cons]
  simpa using pollRunFrom_split cys (poll st cy).1 _

theorem foldl_filterStep_inv (c : String) (cursor : Nat) :
    ∀ (items : List WeChatChatHistoryItem) (seen : List MsgKey)
      (acc : List WeChatChatHistoryItem),
      (acc.map (msgKey c)).Nodup →
      (∀ k ∈ acc.map (msgKey c), k ∈ seen) →
      (((items.foldl (filterStep c cursor) (seen, acc)).2.map (msgKey c)).Nodup
       ∧ (∀ k ∈ (items.foldl (filterStep c cursor) (seen, acc)).2.map (msgKey c),
            k ∈ (items.foldl (filterStep c cursor) (seen, acc)).1)
       ∧ (∀ k ∈ seen, k ∈ (items.foldl (filterStep c cursor) (seen, acc)).1)
       ∧ (items.foldl (filterStep c cursor) (seen, acc)).1.length ≤
           seen.length + items.length
       ∧ (∀ k ∈ (items.foldl (filterStep c cursor) (seen, acc)).2.map (msgKey c),
            k ∉ acc.map (msgKey c) → k ∉ seen))
  | [], seen, acc, hnd, hmem => by
    refine ⟨by simpa using hnd, ?_, ?_, by simp, ?_⟩
    · intro k hk; exact hmem k (by simpa using hk)
    · intro k hk; simpa using hk
    · intro k hk hnot; exact absurd (by simpa using hk) hnot
  | item :: rest, seen, acc, hnd, hmem => by
    rw [List.foldl_cons]
    by_cases hk : msgKey c item ∈ seen
    · have hstep : filterStep c cursor (seen, acc) item = (seen, acc) := by
        simp [filterStep, hk]
      rw [hstep]
      have ih := foldl_filterStep_inv c cursor rest seen acc hnd hmem
      exact ⟨ih.1, ih.2.1, ih.2.2.1, le_trans ih.2.2.2.1 (by simp), ih.2.2.2.2⟩
    · have hknacc : msgKey c item ∉ acc.map (msgKey c) := fun h => hk (hmem _ h)
      have hmem2 : ∀ k ∈ acc.map (msgKey c), k ∈ seen ++ [msgKey c item] := by
        intro k h; simp [hmem k h]
      by_cases hts : item.created_at ≤ cursor
      · have hstep : filterStep c cursor (seen, acc) item =
            (seen ++ [msgKey c item], acc) := by
          simp [filterStep, hk, hts]
        rw [hstep]
        have ih := foldl_filterStep_inv c cursor rest (seen ++ [msgKey c item]) acc hnd hmem2
        refine ⟨ih.1, ih.2.1, ?_, ?_, ?_⟩
        · intro k h; exact ih.2.2.1 k (by simp [h])
        · calc (rest.foldl (filterStep c cursor) (seen ++ [msgKey c item], acc)).1.length
              ≤ (seen ++ [msgKey c item]).length + rest.length := ih.2.2.2.1
            _ ≤ seen.length + (item :: rest).length := by simp; omega
        · intro k h hnot
          have := ih.2.2.2.2 k h hnot
          intro hin
          exact this (by simp [hin])
      · have hstep : filterStep c cursor (seen, acc) item =
            (seen ++ [msgKey c item], acc ++ [item]) := by
          simp [filterStep, hk, hts]
        rw [hstep]
        have hnd2 : ((acc ++ [item]).map (msgKey c)).Nodup := by
          rw [List.map_append]
          refine (List.nodup_append).mpr ⟨hnd, by simp, ?_⟩
          intro a ha hb
          have : a = msgKey c item := by simpa using hb
          exact hknacc (this ▸ ha)
        have hmem3 : ∀ k ∈ (acc ++ [item]).map (msgKey c),
            k ∈ seen ++ [msgKey c item] := by
          intro k h
          rw [List.map_append] at h
          rcases List.mem_append.mp h with h1 | h2
          · simp [hmem k h1]
          · simp at h2; simp [h2]
        have ih := foldl_filterStep_inv c cursor rest (seen ++ [msgKey c item])
          (acc ++ [item]) hnd2 hmem3
        refine ⟨ih.1, ih.2.1, ?_, ?_, ?_⟩
        · intro k h; exact ih.2.2.1 k (by simp [h])
        · calc (rest.foldl (filterStep c cursor)
                (seen ++ [msgKey c item], acc ++ [item])).1.length
              ≤ (seen ++ [msgKey c item]).length + rest.length := ih.2.2.2.1
            _ ≤ seen.length + (item :: rest).length := by simp; omega
        · intro k h hnot
          by_cases hke : k = msgKey c item
          · exact hke ▸ hk
          · have hnot2 : k ∉ (acc ++ [item]).map (msgKey c) := by
              rw [List.map_append]
              intro hin
              rcases List.mem_append.mp hin with h1 | h2
              · exact hnot h1
              · exact hke (by simpa using h2)
            have := ih.2.2.2.2 k h hnot2
            intro hin
            exact this (by simp [hin])

theorem pollContact_msgs_keys (st : PollState) (c : String)
    (items : List WeChatChatHistoryItem) :
    (pollContact st c items).2.map inboundKey =
      ((runFilter c ((st.cursors c).getD 0) st.seen items).2.reverse.filter
        (shouldEmit st)).map (msgKey c) := by
  rw [pollContact_msgs]
  simp [List.map_map, Function.comp_def, inboundKey_convert]

theorem pollContact_inv (st : PollState) (c : String)
    (items : List WeChatChatHistoryItem) (dk : List MsgKey)
    (h1 : dk.Nodup) (h2 : ∀ k ∈ dk, k ∈ st.seen) :
    ((dk ++ (pollContact st c items).2.map inboundKey).Nodup
     ∧ (∀ k ∈ dk ++ (pollContact st c items).2.map inboundKey,
          k ∈ (pollContact st c items).1.seen)
     ∧ (pollContact st c items).1.seen.length ≤ st.seen.length + items.length) := by
  have hinv := foldl_filterStep_inv c ((st.cursors c).getD 0) items st.seen []
    (by simp) (by simp)
  have hmem_new : ∀ k ∈ (pollContact st c items).2.map inboundKey,
      k ∈ (items.foldl (filterStep c ((st.cursors c).getD 0)) (st.seen, [])).2.map
        (msgKey c) := by
    intro k hk
    rw [pollContact_msgs_keys] at hk
    rcases List.mem_map.mp hk with ⟨it, hit, hke⟩
    have : it ∈ (runFilter c ((st.cursors c).getD 0) st.seen items).2 := by
      have := (List.filter_sublist
        ((runFilter c ((st.cursors c).getD 0) st.seen items).2.reverse)).mem hit
      simpa using this
    exact hke ▸ List.mem_map.mpr ⟨it, this, rfl⟩
  have hnd_new : ((pollContact st c items).2.map inboundKey).Nodup := by
    rw [pollContact_msgs_keys]
    have hsub : List.Sublist
        (((runFilter c ((st.cursors c).getD 0) st.seen items).2.reverse.filter
          (shouldEmit st)).map (msgKey c))
        (((runFilter c ((st.cursors c).getD 0) st.seen items).2.map (msgKey c)).reverse) := by
      have hs := (@List.filter_sublist _ (shouldEmit st)
        ((runFilter c ((st.cursors c).getD 0) st.seen items).2.reverse)).map (msgKey c)
      simpa [List.map_reverse] using hs
    exact hsub.nodup (by simpa using hinv.1)
  have hnot_new : ∀ k ∈ (pollContact st c items).2.map inboundKey, k ∉ st.seen := by
    intro k hk
    exact hinv.2.2.2.2 k (hmem_new k hk) (by simp)
  have hseen : (pollContact st c items).1.seen =
      (items.foldl (filterStep c ((st.cursors c).getD 0)) (st.seen, [])).1 :=
    pollContact_seen st c items
  refine ⟨?_, ?_, ?_⟩
  · refine (List.nodup_append).mpr ⟨h1, hnd_new, ?_⟩
    intro a ha hb
    exact hnot_new a hb (h2 a ha)
  · intro k hk
    rcases List.mem_append.mp hk with hdk | hnew
    · rw [hseen]; exact hinv.2.2.1 k (h2 k hdk)
    · rw [hseen]; exact hinv.2.1 k (hmem_new k hnew)
  · rw [hseen]; exact hinv.2.2.2.1

theorem pollContacts_inv :
    ∀ (pages : List (String × List WeChatChatHistoryItem)) (st : PollState)
      (dk : List MsgKey), dk.Nodup → (∀ k ∈ dk, k ∈ st.seen) →
      ((dk ++ (pollContacts st pages).2.map inboundKey).Nodup
       ∧ (∀ k ∈ dk ++ (pollContacts st pages).2.map inboundKey,
            k ∈ (pollContacts st pages).1.seen)
       ∧ (pollContacts st pages).1.seen.length ≤ st.seen.length + pageItems pages)
  | [], st, dk, h1, h2 => by
    refine ⟨by simpa [pollContacts, pollContactsFrom] using h1, ?_,
      by simp [pollContacts, pollContactsFrom, pageItems]⟩
    intro k hk
    simp only [pollContacts, pollContactsFrom, List.foldl_nil, List.map_nil,
      List.append_nil] at hk ⊢
    exact h2 k hk
  | p :: ps, st, dk, h1, h2 => by
    rw [pollContacts_cons]
    have hc := pollContact_inv st p.1 p.2 dk h1 h2
    have ih := pollContacts_inv ps (pollContact st p.1 p.2).1
      (dk ++ (pollContact st p.1 p.2).2.map inboundKey) hc.1 hc.2.1
    refine ⟨?_, ?_, ?_⟩
    · simpa [List.append_assoc, List.map_append] using ih.1
    · intro k hk
      apply ih.2.1
      simpa [List.append_assoc, List.map_append] using hk
    · calc (pollContacts (pollContact st p.1 p.2).1 ps).1.seen.length
          ≤ (pollContact st p.1 p.2).1.seen.length + pageItems ps := ih.2.2
        _ ≤ st.seen.length + pageItems (p :: ps) := by
            have h3 := hc.2.2
            have h4 : pageItems (p :: ps) = p.2.length + pageItems ps := by
              simp [pageItems]
            omega

theorem poll_inv (st : PollState)
    (pages : List (String × List WeChatChatHistoryItem)) (dk : List MsgKey)
    (h1 : dk.Nodup) (h2 : ∀ k ∈ dk, k ∈ st.seen)
    (hlen : st.seen.length + pageItems pages ≤ 10000) :
    ((dk ++ (poll st pages).2.map inboundKey).Nodup
     ∧ (∀ k ∈ dk ++ (poll st pages).2.map inboundKey, k ∈ (poll st pages).1.seen)
     ∧ (poll st pages).1.seen.length ≤ st.seen.length + pageItems pages) := by
  by_cases hp : pages = []
  · subst hp
    refine ⟨by simpa [poll] using h1, ?_, by simp [poll, pageItems]⟩
    intro k hk
    simp only [poll, List.isEmpty_nil, if_true, List.map_nil, List.append_nil] at hk ⊢
    exact h2 k hk
  · rw [poll_of_ne_nil st pages hp]
    have hc := pollContacts_inv pages st dk h1 h2
    have hev : evictSeen (pollContacts st pages).1.seen =
        (pollContacts st pages).1.seen :=
      evictSeen_of_le _ (le_trans hc.2.2 hlen)
    refine ⟨hc.1, ?_, ?_⟩
    · intro k hk
      show k ∈ evictSeen (pollContacts st pages).1.seen
      rw [hev]
      exact hc.2.1 k hk
    · show (evictSeen (pollContacts st pages).1.seen).length ≤ _
      rw [hev]
      exact hc.2.2

theorem pollRun_inv :
    ∀ (cycles : List (List (String × List WeChatChatHistoryItem)))
      (st : PollState) (dk : List MsgKey),
      dk.Nodup → (∀ k ∈ dk, k ∈ st.seen) →
      st.seen.length + totalItems cycles ≤ 10000 →
      ((dk ++ (pollRun st cycles).2.map inboundKey).Nodup
       ∧ (∀ k ∈ dk ++ (pollRun st cycles).2.map inboundKey,
            k ∈ (pollRun st cycles).1.seen)
       ∧ (pollRun st cycles).1.seen.length ≤ st.seen.length + totalItems cycles)
  | [], st, dk, h1, h2, _ => by
    refine ⟨by simpa [pollRun, pollRunFrom] using h1, ?_,
      by simp [pollRun, pollRunFrom, totalItems]⟩
    intro k hk
    simp only [pollRun, pollRunFrom, List.foldl_nil, List.map_nil,
      List.append_nil] at hk ⊢
    exact h2 k hk
  | cy :: cys, st, dk, h1, h2, hlen => by
    rw [pollRun_cons]
    have htot : totalItems (cy :: cys) = pageItems cy + totalItems cys := by
      simp [totalItems]
    have hpi : st.seen.length + pageItems cy ≤ 10000 := by omega
    have hc := poll_inv st cy dk h1 h2 hpi
    have ih := pollRun_inv cys (poll st cy).1
      (dk ++ (poll st cy).2.map inboundKey) hc.1 hc.2.1
      (by have h3 := hc.2.2; omega)
    refine ⟨?_, ?_, ?_⟩
    · simpa [List.append_assoc, List.map_append] using ih.1
    · intro k hk
      apply ih.2.1
      simpa [List.append_assoc, List.map_append] using hk
    · calc (pollRun (poll st cy).1 cys).1.seen.length
          ≤ (poll st cy).1.seen.length + totalItems cys := ih.2.2
        _ ≤ st.seen.length + totalItems (cy :: cys) := by
            have h3 := hc.2.2
            omega

theorem shouldEmit_mkTextItem (st : PollState) (h : st.robotWxid = none)
    (a b : Nat) : shouldEmit st (mkTextItem a b) = true := by
  simp [shouldEmit, mkTextItem, h]

theorem freshPage_keys (c : String) (n : Nat) :
    (freshPage n).map (msgKey c) = (List.range n).map (fun i => ((c, i) : MsgKey)) := by
  simp [freshPage, List.map_map, Function.comp_def, msgKey, mkTextItem]

theorem rangeKeys_nodup (c : String) (n : Nat) :
    ((List.range n).map (fun i => ((c, i) : MsgKey))).Nodup :=
  (List.nodup_range n).map (fun a b hab => by simpa using hab)

theorem mem_freshPage (n : Nat) (it : WeChatChatHistoryItem)
    (h : it ∈ freshPage n) : ∃ i, i < n ∧ it = mkTextItem i (i + 1) := by
  rcases List.mem_map.mp h with ⟨i, hi, he⟩
  exact ⟨i, List.mem_range.mp hi, he.symm⟩

theorem freshPage_created_le (n : Nat) :
    ∀ it ∈ freshPage n, it.created_at ≤ n := by
  intro it h
  rcases mem_freshPage n it h with ⟨i, hi, he⟩
  subst he
  simp [mkTextItem]
  omega

theorem freshPage_isEmpty (n : Nat) (h : 0 < n) : (freshPage n).isEmpty = false := by
  have : (freshPage n).length = n := by simp [freshPage]
  cases he : freshPage n with
  | nil => rw [he] at this; simp at this; omega
  | cons x xs => rfl

theorem pollContacts_singleton (st : PollState)
    (p : String × List WeChatChatHistoryItem) :
    pollContacts st [p] = pollContact st p.1 p.2 := by
  rw [pollContacts_cons]
  simp [pollContacts, pollContactsFrom]

theorem poll_freshPage_start (now : Nat) (rn : Option String) (n : Nat)
    (hn : 0 < n) :
    ((poll (startState now [] none rn) [("a", freshPage n)]).2.map inboundKey =
        ((List.range n).map (fun i => (("a", i) : MsgKey))).reverse
     ∧ (poll (startState now [] none rn) [("a", freshPage n)]).1.seen =
        evictSeen ((List.range n).map (fun i => (("a", i) : MsgKey)))
     ∧ (poll (startState now [] none rn) [("a", freshPage n)]).1.cursors "a" =
        some (maxCreatedAt (freshPage n))
     ∧ (poll (startState now [] none rn) [("a", freshPage n)]).1.robotWxid = none) := by
  set st := startState now [] none rn with hst
  have hw : st.robotWxid = none := rfl
  have hcur : (st.cursors "a").getD 0 = 0 := rfl
  have hseen : st.seen = [] := rfl
  have hkeys : (freshPage n).map (msgKey "a") =
      (List.range n).map (fun i => (("a", i) : MsgKey)) := freshPage_keys "a" n
  have hnd : ((freshPage n).map (msgKey "a")).Nodup := by
    rw [hkeys]; exact rangeKeys_nodup "a" n
  have hfr : ∀ k ∈ (freshPage n).map (msgKey "a"), k ∉ st.seen := by
    intro k _; rw [hseen]; exact List.not_mem_nil k
  have hne : ([("a", freshPage n)] :
      List (String × List WeChatChatHistoryItem)) ≠ [] := by simp
  have hpc := pollContacts_singleton st ("a", freshPage n)
  have hfm := pollContact_fresh_msgs st "a" (freshPage n) hnd hfr
  have hfs := pollContact_fresh_seen st "a" (freshPage n) hnd hfr
  have hfilter1 : (freshPage n).filter
      (fun it => decide ((st.cursors "a").getD 0 < it.created_at)) = freshPage n := by
    apply List.filter_eq_self.mpr
    intro it hit
    rcases mem_freshPage n it hit with ⟨i, _, he⟩
    subst he
    rw [hcur]
    simp [mkTextItem]
  have hfilter2 : (freshPage n).reverse.filter (shouldEmit st) =
      (freshPage n).reverse := by
    apply List.filter_eq_self.mpr
    intro it hit
    rcases mem_freshPage n it (List.mem_reverse.mp hit) with ⟨i, _, he⟩
    subst he
    exact shouldEmit_mkTextItem st hw i (i + 1)
  have hmsgs : (pollContact st "a" (freshPage n)).2 =
      (freshPage n).reverse.map (fun it => convertToInboundMessage st it "a") := by
    rw [hfm, hfilter1, hfilter2]
  refine ⟨?_, ?_, ?_, ?_⟩
  · rw [poll_of_ne_nil st _ hne]
    show (pollContacts st [("a", freshPage n)]).2.map inboundKey = _
    rw [hpc, hmsgs]
    rw [List.map_map]
    have : (freshPage n).reverse.map
        (inboundKey ∘ fun it => convertToInboundMessage st it "a") =
        (freshPage n).reverse.map (msgKey "a") := by
      apply List.map_congr_left
      intro it _
      exact inboundKey_convert st it "a"
    rw [this, List.map_reverse, hkeys]
  · rw [poll_of_ne_nil st _ hne]
    show evictSeen (pollContacts st [("a", freshPage n)]).1.seen = _
    rw [hpc, hfs, hseen, List.nil_append, hkeys]
  · rw [poll_of_ne_nil st _ hne]
    show (pollContacts st [("a", freshPage n)]).1.cursors "a" = _
    rw [hpc, pollContact_cursors, freshPage_isEmpty n hn]
    simp
  · rw [poll_robotWxid]; exact hw

theorem range_drop_eq (a b : Nat) : (List.range (a + b)).drop a = List.range' a b := by
  rw [List.range_eq_range', Nat.add_comm a b, ← List.range'_append_1 0 a b,
    List.drop_left']
  · simp
  · simp

theorem rangeKeys_drop (c : String) (n : Nat) (h5 : 5000 ≤ n) :
    ((List.range n).map (fun i => ((c, i) : MsgKey))).drop 5000 =
      (List.range' 5000 (n - 5000)).map (fun i => ((c, i) : MsgKey)) := by
  have hn : n = 5000 + (n - 5000) := by omega
  rw [← List.map_drop]
  rw [show (List.range n).drop 5000 = List.range' 5000 (n - 5000) from by
    conv_lhs => rw [hn]
    rw [range_drop_eq 5000 (n - 5000)]]

theorem zero_not_mem_rangeKeys_drop (c : String) (m : Nat) :
    ((c, 0) : MsgKey) ∉ (List.range' 5000 m).map (fun i => ((c, i) : MsgKey)) := by
  intro h
  rcases List.mem_map.mp h with ⟨i, hi, he⟩
  have hi0 : i = 0 := by simpa using he
  have := (List.mem_range'_1.mp hi).1
  omega

theorem maxCreatedAt_freshPage_le (n : Nat) :
    maxCreatedAt (freshPage n) ≤ n :=
  maxCreatedAt_le (freshPage n) n (freshPage_created_le n)

theorem pollContact_single_fresh_keys (st : PollState) (c : String)
    (it : WeChatChatHistoryItem)
    (hfr : msgKey c it ∉ st.seen)
    (hdec : decide ((st.cursors c).getD 0 < it.created_at) = true)
    (hemit : shouldEmit st it = true) :
    (pollContact st c [it]).2.map inboundKey = [msgKey c it] := by
  have hmsgs := pollContact_fresh_msgs st c [it] (by simp)
    (by intro k hk; rw [show k = msgKey c it from by simpa using hk]; exact hfr)
  rw [hmsgs]
  simp [hdec, hemit, inboundKey_convert]

theorem poll_msgs_of_ne_nil (st : PollState)
    (pages : List (String × List WeChatChatHistoryItem)) (h : pages ≠ []) :
    (poll st pages).2 = (pollContacts st pages).2 := by
  rw [poll_of_ne_nil st pages h]

theorem pollRun_nil (st : PollState) : pollRun st [] = (st, []) := rfl

theorem pollRun_pair (st : PollState)
    (cyA cyB : List (String × List WeChatChatHistoryItem)) :
    (pollRun st [cyA, cyB]).2 =
      (poll st cyA).2 ++ (poll (poll st cyA).1 cyB).2 := by
  rw [pollRun_cons, pollRun_cons, pollRun_nil]
  simp

end WeChatMessagePoller

open WeChatMessagePoller

set_option maxRecDepth 4000 in
/-- C1, counterexample. The claim states that no identity key is ever
delivered to the callback more than once across the lifetime of a poller.
In the concrete run `cexC1Cycles`, a first cycle processes 10001 fresh text
items for contact "a", which pushes the seen-set over 10000 keys and makes
the end-of-cycle cleanup evict the 5000 oldest keys, among them
`("a", 0)`; a second cycle presents message 0 again with a newer creation
time, and it is delivered a second time. Hence the delivered identity keys
of this run are not duplicate-free. -/
theorem c1_counterexample :
    ¬ (((pollRun (startState 0 [] none none) cexC1Cycles).2.map inboundKey).Nodup) := by
  have h1 := poll_freshPage_start 0 none 10001 (by omega)
  set s0 := startState 0 [] none none with hs0
  set cy1 : List (String × List WeChatChatHistoryItem) := [("a", freshPage 10001)]
    with hcy1
  set st1 := (poll s0 cy1).1 with hst1
  have hseen1 : st1.seen = (List.range' 5000 5001).map (fun i => (("a", i) : MsgKey)) := by
    rw [hst1, h1.2.1]
    have hlen : ((List.range 10001).map (fun i => (("a", i) : MsgKey))).length = 10001 := by
      rw [List.length_map, List.length_range]
    rw [evictSeen_of_gt _ (by rw [hlen]; omega)]
    have h2 := rangeKeys_drop "a" 10001 (by omega)
    simpa using h2
  have hcur1 : (st1.cursors "a").getD 0 ≤ 10001 := by
    rw [h1.2.2.1, Option.getD_some]
    exact maxCreatedAt_freshPage_le 10001
  have hw1 : st1.robotWxid = none := h1.2.2.2
  have hfr2 : msgKey "a" (mkTextItem 0 999999) ∉ st1.seen := by
    rw [hseen1, show msgKey "a" (mkTextItem 0 999999) = ("a", 0) from rfl]
    exact zero_not_mem_rangeKeys_drop "a" 5001
  have hdec : (decide ((st1.cursors "a").getD 0 <
      (mkTextItem 0 999999).created_at)) = true := by
    rw [h1.2.2.1, Option.getD_some]
    exact decide_eq_true (by
      have h3 := maxCreatedAt_freshPage_le 10001
      have h4 : (mkTextItem 0 999999).created_at = 999999 := rfl
      omega)
  have hemit2 : shouldEmit st1 (mkTextItem 0 999999) = true :=
    shouldEmit_mkTextItem st1 hw1 0 999999
  have hkeys2 : ((pollContact st1 "a" [mkTextItem 0 999999]).2.map inboundKey) =
      [msgKey "a" (mkTextItem 0 999999)] :=
    pollContact_single_fresh_keys st1 "a" (mkTextItem 0 999999) hfr2 hdec hemit2
  have hp2 : (poll st1 [("a", [mkTextItem 0 999999])]).2 =
      (pollContact st1 "a" [mkTextItem 0 999999]).2 := by
    rw [poll_msgs_of_ne_nil _ _ (by simp), pollContacts_singleton]
  have hrun : (pollRun s0 cexC1Cycles).2 =
      (poll s0 cy1).2 ++ (poll st1 [("a", [mkTextItem 0 999999])]).2 := by
    rw [show cexC1Cycles = [cy1, [("a", [mkTextItem 0 999999])]] from rfl,
      pollRun_pair, ← hst1]
  intro hnd
  rw [hrun, List.map_append, hp2, hkeys2,
    show (poll s0 cy1).2.map inboundKey =
      ((List.range 10001).map (fun i => (("a", i) : MsgKey))).reverse from h1.1] at hnd
  have hdisj := (List.nodup_append.mp hnd).2.2
  have hmem : (("a", 0) : MsgKey) ∈
      ((List.range 10001).map (fun i => (("a", i) : MsgKey))).reverse :=
    List.mem_reverse.mpr (List.mem_map.mpr ⟨0, List.mem_range.mpr (by omega), rfl⟩)
  exact hdisj hmem (List.mem_singleton.mpr rfl)

/-- C1, amended claim. No identity key `(contactId, msg_id)` is delivered to
the callback more than once across the lifetime of a poller started by
`start()` as long as the seen-set cleanup never runs, in particular whenever
the total number of history items processed over the run stays within the
10000-entry high-water mark; once the mark is exceeded, the cleanup evicts
the 5000 oldest-inserted keys and an evicted key can be delivered again. -/
theorem c1_amended (now : Nat) (contacts : List String) (rwx rnx : Option String)
    (cycles : List (List (String × List WeChatChatHistoryItem)))
    (h : totalItems cycles ≤ 10000) :
    ((pollRun (startState now contacts rwx rnx) cycles).2.map inboundKey).Nodup := by
  have hinv := pollRun_inv cycles (startState now contacts rwx rnx) []
    (by simp) (by simp) (by simpa [startState] using h)
  simpa using hinv.1

/-- Witness for C1: a small run with two fresh items is below the high-water
mark and its delivered keys are duplicate-free. -/
theorem c1_witness :
    totalItems [[("a", [mkTextItem 1 5, mkTextItem 2 6])]] ≤ 10000
    ∧ ((pollRun (startState 0 [] none none)
        [[("a", [mkTextItem 1 5, mkTextItem 2 6])]]).2.map inboundKey).Nodup :=
  ⟨by decide, c1_amended 0 [] none none _ (by decide)⟩

/-- C2, counterexample. The claim states that the per-contact cursor never
decreases, including relative to the wall-clock value seeded at `start()`.
Here the cursor of contact "a" is seeded to 1000 at start; the first cycle
fetches one page holding a single older item (creation time 500), and the
cursor update unconditionally stores the page maximum, moving the cursor
down from 1000 to 500. -/
theorem c2_counterexample :
    (WeChatMessagePoller.startState 1000 ["a"] none none).cursors "a" = some 1000
    ∧ (WeChatMessagePoller.poll (WeChatMessagePoller.startState 1000 ["a"] none none)
        [("a", [mkTextItem 1 500])]).1.cursors "a" = some 500
    ∧ (500 : Nat) < 1000 := by
  refine ⟨rfl, ?_, by omega⟩
  decide

/-- C2, amended claim. After processing one contact in a cycle, the cursor
stored for that contact equals the maximum creation time of the raw fetched
page whenever the page is non-empty (and is untouched otherwise); cursors of
other contacts are untouched. This stored value can be lower than the
previous cursor — in particular lower than the wall-clock seed planted by
`start()` when the whole page is older than the seed. The cursor does not
decrease whenever the fetched page is empty or holds at least one item whose
creation time is at least the current cursor. -/
theorem c2_amended (st : WeChatMessagePoller.PollState) (c : String)
    (items : List WeChatChatHistoryItem) :
    ((WeChatMessagePoller.pollContact st c items).1.cursors c =
       (if items.isEmpty then st.cursors c
        else some (WeChatMessagePoller.maxCreatedAt items)))
    ∧ (∀ c2, c2 ≠ c →
        (WeChatMessagePoller.pollContact st c items).1.cursors c2 = st.cursors c2)
    ∧ ((∃ it ∈ items, (st.cursors c).getD 0 ≤ it.created_at) →
        (st.cursors c).getD 0 ≤
          ((WeChatMessagePoller.pollContact st c items).1.cursors c).getD 0) := by
  refine ⟨?_, ?_, ?_⟩
  · rw [WeChatMessagePoller.pollContact_cursors]
    by_cases h : items.isEmpty
    · simp [h]
    · simp [h]
  · intro c2 hne
    rw [WeChatMessagePoller.pollContact_cursors]
    by_cases h : items.isEmpty
    · simp [h]
    · simp [h, hne]
  · rintro ⟨it, hit, hle⟩
    have hne : items.isEmpty = false := by
      cases items with
      | nil => exact absurd hit (List.not_mem_nil it)
      | cons x xs => rfl
    rw [WeChatMessagePoller.pollContact_cursors, hne]
    simp only [Bool.false_eq_true, if_false, if_pos rfl, Option.getD_some]
    exact le_trans hle (WeChatMessagePoller.le_maxCreatedAt items it hit)

/-- Witness for C2: a contact seeded at 10 receives a page holding an item
with creation time 50, and the stored cursor does not decrease. -/
theorem c2_witness :
    ((WeChatMessagePoller.startState 10 ["a"] none none).cursors "a").getD 0 ≤
      ((WeChatMessagePoller.pollContact (WeChatMessagePoller.startState 10 ["a"] none none)
        "a" [mkTextItem 1 50]).1.cursors "a").getD 0 :=
  (c2_amended (WeChatMessagePoller.startState 10 ["a"] none none) "a"
    [mkTextItem 1 50]).2.2 ⟨mkTextItem 1 50, by simp, by decide⟩

/-- C3. Given one contact whose fetched page holds exactly five fresh text
items with creation times 100, 90, 80, 70, 60 in newest-first order and a
stored cursor of 80, exactly the items with creation times 90 and 100 are
delivered, in the order 90 then 100 (timestamps are reported in
milliseconds, message ids identify the items). -/
theorem c3_filter_and_order :
    ((WeChatMessagePoller.poll (WeChatMessagePoller.startState 80 ["peer"] none none)
        [("peer", [mkTextItem 5 100, mkTextItem 4 90, mkTextItem 3 80,
                   mkTextItem 2 70, mkTextItem 1 60])]).2.map
      (fun m => m.msgId)) = [4, 5]
    ∧ ((WeChatMessagePoller.poll (WeChatMessagePoller.startState 80 ["peer"] none none)
        [("peer", [mkTextItem 5 100, mkTextItem 4 90, mkTextItem 3 80,
                   mkTextItem 2 70, mkTextItem 1 60])]).2.map
      (fun m => m.timestamp)) = [90000, 100000] := by
  exact ⟨by decide, by decide⟩

theorem cexC4St_seen :
    cexC4St.seen = (List.range' 5000 10001).map (fun i => (("a", i) : MsgKey)) := by
  have h1 := WeChatMessagePoller.poll_freshPage_start 0 none 15001 (by omega)
  show (WeChatMessagePoller.poll (WeChatMessagePoller.startState 0 [] none none)
    [("a", freshPage 15001)]).1.seen = _
  rw [h1.2.1]
  have hlen : ((List.range 15001).map (fun i => (("a", i) : MsgKey))).length = 15001 := by
    rw [List.length_map, List.length_range]
  rw [WeChatMessagePoller.evictSeen_of_gt _ (by rw [hlen]; omega)]
  have h2 := WeChatMessagePoller.rangeKeys_drop "a" 15001 (by omega)
  simpa using h2

theorem cexC4St_seen_length : cexC4St.seen.length = 10001 := by
  rw [cexC4St_seen, List.length_map, List.length_range']

/-- C4, counterexample. The claim states that at the end of every polling
cycle a seen-set holding strictly more than 10000 keys loses exactly its
5000 oldest-inserted keys. The state `cexC4St` is reached by one cycle over
a page of 15001 fresh items (15001 keys enter the set, the cleanup then
drops 5000, leaving 10001). A following cycle whose resolved contact list is
empty returns before the cleanup step: the set still holds 10001 keys,
strictly more than 10000, yet nothing is removed. -/
theorem c4_counterexample :
    10000 < (WeChatMessagePoller.pollContacts cexC4St []).1.seen.length
    ∧ (WeChatMessagePoller.poll cexC4St []).1.seen =
        (WeChatMessagePoller.pollContacts cexC4St []).1.seen
    ∧ (WeChatMessagePoller.poll cexC4St []).1.seen ≠
        (WeChatMessagePoller.pollContacts cexC4St []).1.seen.drop 5000 := by
  have hpc : WeChatMessagePoller.pollContacts cexC4St [] = (cexC4St, []) := rfl
  have hp : WeChatMessagePoller.poll cexC4St [] = (cexC4St, []) := rfl
  refine ⟨?_, ?_, ?_⟩
  · rw [hpc]
    show 10000 < cexC4St.seen.length
    rw [cexC4St_seen_length]
    omega
  · rw [hp, hpc]
  · rw [hp, hpc]
    show cexC4St.seen ≠ cexC4St.seen.drop 5000
    intro he
    have hlen := congrArg List.length he
    rw [List.length_drop, cexC4St_seen_length] at hlen
    omega

/-- C4, amended claim. At the end of every polling cycle whose resolved
contact list is non-empty, if the seen-set holds strictly more than 10000
keys then exactly the 5000 oldest-inserted keys are dropped from it (the
list is kept in insertion order), and otherwise it is left unchanged; a
cycle with an empty contact list returns before the cleanup step and leaves
the set unchanged regardless of its size. -/
theorem c4_amended (st : WeChatMessagePoller.PollState)
    (pages : List (String × List WeChatChatHistoryItem)) (h : pages ≠ []) :
    (WeChatMessagePoller.poll st pages).1.seen =
      (if 10000 < (WeChatMessagePoller.pollContacts st pages).1.seen.length
       then (WeChatMessagePoller.pollContacts st pages).1.seen.drop 5000
       else (WeChatMessagePoller.pollContacts st pages).1.seen) := by
  rw [WeChatMessagePoller.poll_of_ne_nil st pages h]
  show WeChatMessagePoller.evictSeen (WeChatMessagePoller.pollContacts st pages).1.seen = _
  by_cases hl : 10000 < (WeChatMessagePoller.pollContacts st pages).1.seen.length
  · rw [WeChatMessagePoller.evictSeen_of_gt _ hl, if_pos hl]
  · rw [WeChatMessagePoller.evictSeen_of_le _ (le_of_not_lt hl), if_neg hl]

/-- Witness for C4: a cycle over one contact with an empty page leaves the
small seen-set unchanged. -/
theorem c4_witness :
    (WeChatMessagePoller.poll (WeChatMessagePoller.startState 0 [] none none)
        [("b", [])]).1.seen =
      (if 10000 < (WeChatMessagePoller.pollContacts
            (WeChatMessagePoller.startState 0 [] none none) [("b", [])]).1.seen.length
       then (WeChatMessagePoller.pollContacts
            (WeChatMessagePoller.startState 0 [] none none) [("b", [])]).1.seen.drop 5000
       else (WeChatMessagePoller.pollContacts
            (WeChatMessagePoller.startState 0 [] none none) [("b", [])]).1.seen) :=
  c4_amended (WeChatMessagePoller.startState 0 [] none none) [("b", [])] (by simp)

/-- C10, counterexample. The claim states that for a contact first seen
after `start()` the cursor defaults to 0 and therefore every not-yet-seen
clean text item of its first page is delivered, including items created
before the poller started. A fresh text item with creation time 0 refutes
the universal statement: the filter requires a creation time strictly
greater than the 0 cursor, so the item is silently dropped. -/
theorem c10_counterexample :
    (WeChatMessagePoller.startState 1000 ["old"] none none).cursors "new" = none
    ∧ (WeChatMessagePoller.poll (WeChatMessagePoller.startState 1000 ["old"] none none)
        [("new", [mkTextItem 7 0])]).2 = [] := by
  refine ⟨rfl, ?_⟩
  decide

/-- C10, amended claim. For a contact with no stored cursor the poller uses
0, so over a fresh page (pairwise distinct keys, none seen before) the
delivered messages are exactly the items with a strictly positive creation
time, oldest-first, subject only to the robot, recalled and non-text skips
(`shouldEmit`); items with creation time 0 are the only ones the zero cursor
still excludes. -/
theorem c10_amended (st : WeChatMessagePoller.PollState) (c : String)
    (items : List WeChatChatHistoryItem)
    (hc : st.cursors c = none)
    (hnd : (items.map (msgKey c)).Nodup)
    (hfr : ∀ k ∈ items.map (msgKey c), k ∉ st.seen) :
    (WeChatMessagePoller.pollContact st c items).2 =
      ((items.filter (fun it => decide (0 < it.created_at))).reverse.filter
        (WeChatMessagePoller.shouldEmit st)).map
        (fun it => WeChatMessagePoller.convertToInboundMessage st it c) := by
  have h := WeChatMessagePoller.pollContact_fresh_msgs st c items hnd hfr
  rw [hc] at h
  simpa using h

/-- Witness for C10: a contact absent from the cursor map gets its single
old-but-positive-timestamp text item delivered. -/
theorem c10_witness :
    (WeChatMessagePoller.pollContact (WeChatMessagePoller.startState 100 ["old"] none none)
        "new" [mkTextItem 3 50]).2 =
      (([mkTextItem 3 50].filter (fun it => decide (0 < it.created_at))).reverse.filter
        (WeChatMessagePoller.shouldEmit (WeChatMessagePoller.startState 100 ["old"] none none))).map
        (fun it => WeChatMessagePoller.convertToInboundMessage
          (WeChatMessagePoller.startState 100 ["old"] none none) it "new") :=
  c10_amended (WeChatMessagePoller.startState 100 ["old"] none none) "new"
    [mkTextItem 3 50] (by decide) (by decide) (by decide)

/-- C5, counterexample. The claim orders the sources as per-account apiToken
first for every account. For the default account the source ignores the
accounts-map entry entirely: with `accounts[default].apiToken` populated and
base level and environment empty, the code resolves to no token at all,
while the claimed order would resolve the per-account token. -/
theorem c5_counterexample :
    resolveWeChatToken (some cexC5Config) (some DEFAULT_ACCOUNT_ID)
        (fun _ => none) none ≠
      resolveWeChatTokenClaimed (some cexC5Config) (some DEFAULT_ACCOUNT_ID)
        (fun _ => none) none
    ∧ resolveWeChatToken (some cexC5Config) (some DEFAULT_ACCOUNT_ID)
        (fun _ => none) none = { token := "", source := "none" }
    ∧ resolveWeChatTokenClaimed (some cexC5Config) (some DEFAULT_ACCOUNT_ID)
        (fun _ => none) none = { token := "acct-token", source := "config" } := by
  have h1 : resolveWeChatToken (some cexC5Config) (some DEFAULT_ACCOUNT_ID)
      (fun _ => none) none = { token := "", source := "none" } := by rfl
  have h2 : resolveWeChatTokenClaimed (some cexC5Config) (some DEFAULT_ACCOUNT_ID)
      (fun _ => none) none = { token := "acct-token", source := "config" } := by rfl
  refine ⟨?_, h1, h2⟩
  rw [h1, h2]
  intro he
  simpa using congrArg WeChatTokenResolution.token he

/-- C5, amended claim. Token resolution order: for a non-default account,
the per-account apiToken, then the per-account tokenFile (read failures
swallowed), then nothing — base level and environment are never consulted
(the result depends only on the accounts map), and when both per-account
sources are empty or the account entry is missing the result is
`{token := "", source := "none"}`. For the default account the accounts-map
entry is ignored and resolution is base apiToken, then base tokenFile, then
the WECHAT_API_TOKEN environment variable, then
`{token := "", source := "none"}`. -/
theorem c5_amended :
    (∀ (cfg : WeChatTokenConfig) (accId : String) (fs : String → Option String)
       (env : Option String) (ac : WeChatAccountTokenConfig) (t : String),
       accId ≠ DEFAULT_ACCOUNT_ID →
       cfg.accounts.bind (fun accs => accs.lookup accId) = some ac →
       nonEmptyTrim ac.apiToken = some t →
       resolveWeChatToken (some cfg) (some accId) fs env =
         { token := t, source := "config" })
  ∧ (∀ (cfg : WeChatTokenConfig) (accId : String) (fs : String → Option String)
       (env : Option String) (ac : WeChatAccountTokenConfig) (t : String),
       accId ≠ DEFAULT_ACCOUNT_ID →
       cfg.accounts.bind (fun accs => accs.lookup accId) = some ac →
       nonEmptyTrim ac.apiToken = none →
       tryTokenFile fs ac.tokenFile = some t →
       resolveWeChatToken (some cfg) (some accId) fs env =
         { token := t, source := "configFile" })
  ∧ (∀ (cfg : WeChatTokenConfig) (accId : String) (fs : String → Option String)
       (env : Option String) (ac : WeChatAccountTokenConfig),
       accId ≠ DEFAULT_ACCOUNT_ID →
       cfg.accounts.bind (fun accs => accs.lookup accId) = some ac →
       nonEmptyTrim ac.apiToken = none →
       tryTokenFile fs ac.tokenFile = none →
       resolveWeChatToken (some cfg) (some accId) fs env =
         { token := "", source := "none" })
  ∧ (∀ (cfg : WeChatTokenConfig) (accId : String) (fs : String → Option String)
       (env : Option String),
       accId ≠ DEFAULT_ACCOUNT_ID →
       cfg.accounts.bind (fun accs => accs.lookup accId) = none →
       resolveWeChatToken (some cfg) (some accId) fs env =
         { token := "", source := "none" })
  ∧ (∀ (cfg1 cfg2 : WeChatTokenConfig) (accId : String)
       (fs : String → Option String) (env1 env2 : Option String),
       accId ≠ DEFAULT_ACCOUNT_ID →
       cfg1.accounts = cfg2.accounts →
       resolveWeChatToken (some cfg1) (some accId) fs env1 =
         resolveWeChatToken (some cfg2) (some accId) fs env2)
  ∧ (∀ (cfg : WeChatTokenConfig) (fs : String → Option String)
       (env : Option String),
       resolveWeChatToken (some cfg) (some DEFAULT_ACCOUNT_ID) fs env =
         (match nonEmptyTrim cfg.apiToken with
          | some t => { token := t, source := "config" }
          | none =>
            match tryTokenFile fs cfg.tokenFile with
            | some t => { token := t, source := "configFile" }
            | none =>
              match nonEmptyTrim env with
              | some t => { token := t, source := "env" }
              | none => { token := "", source := "none" })) := by
  refine ⟨?_, ?_, ?_, ?_, ?_, ?_⟩
  · intro cfg accId fs env ac t h hl ht
    simp [resolveWeChatToken, h, hl, ht]
  · intro cfg accId fs env ac t h hl ht hf
    simp [resolveWeChatToken, h, hl, ht, hf]
  · intro cfg accId fs env ac h hl ht hf
    simp [resolveWeChatToken, h, hl, ht, hf]
  · intro cfg accId fs env h hl
    simp [resolveWeChatToken, h, hl]
  · intro cfg1 cfg2 accId fs env1 env2 h hacc
    simp [resolveWeChatToken, h, hacc]
  · intro cfg fs env
    simp [resolveWeChatToken]

/-- Witness for C5: a non-default account resolves its own trimmed apiToken
as source "config" even when base and environment tokens are populated. -/
theorem c5_witness :
    resolveWeChatToken
      (some { apiToken := some "base-tok", tokenFile := none,
              accounts := some [("acc2",
                { apiToken := some " tok ", tokenFile := none })] })
      (some "acc2") (fun _ => none) (some "env-tok") =
      { token := "tok", source := "config" } :=
  c5_amended.1
    { apiToken := some "base-tok", tokenFile := none,
      accounts := some [("acc2", { apiToken := some " tok ", tokenFile := none })] }
    "acc2" (fun _ => none) (some "env-tok")
    { apiToken := some " tok ", tokenFile := none } "tok"
    (by decide) (by decide) (by decide)

/-- C6. When requireMention is in force (explicitly true or defaulted) and a
group message lacks an at-mention, the handler returns before any access
control: no effect is produced (no pairing registration, no send, no
activity record, no reply dispatch), and the outcome is the same for every
allow-list, policy configuration and host behavior. -/
theorem c6_mention_filter (msg : WeChatInboundMessage)
    (d1 d2 : WeChatInboundHandlerDeps)
    (hg : msg.chatType = "group") (hm : msg.isAtMe = false)
    (h1 : d1.requireMention.getD true = true)
    (h2 : d2.requireMention.getD true = true) :
    handleWeChatInboundMessage msg d1 = []
    ∧ handleWeChatInboundMessage msg d1 = handleWeChatInboundMessage msg d2 := by
  have e1 : handleWeChatInboundMessage msg d1 = [] := by
    simp [handleWeChatInboundMessage, hg, hm, h1]
  have e2 : handleWeChatInboundMessage msg d2 = [] := by
    simp [handleWeChatInboundMessage, hg, hm, h2]
  exact ⟨e1, by rw [e1, e2]⟩

/-- Witness for C6: a concrete non-mentioned group message is dropped under
both a permissive and a restrictive dependency record. -/
theorem c6_witness :
    handleWeChatInboundMessage cexC6Msg cexC6DepsA = []
    ∧ handleWeChatInboundMessage cexC6Msg cexC6DepsA =
        handleWeChatInboundMessage cexC6Msg cexC6DepsB :=
  c6_mention_filter cexC6Msg cexC6DepsA cexC6DepsB rfl rfl (by decide) (by decide)

/-- C7, counterexample. The claim states that under effective policy
"pairing" with an unlisted sender exactly one pairing request is registered
and one pairing reply sent. When the host `buildPairingReply` returns no
reply (a falsy value), the handler registers nothing and sends nothing. -/
theorem c7_counterexample :
    effectivePolicy cexC7Msg cexC7Deps = "pairing"
    ∧ (normalizedAllowFrom (cexC7Deps.allowFrom.getD [])).contains
        (strToLower cexC7Msg.senderWxid) = false
    ∧ countPairingUpserts (handleWeChatInboundMessage cexC7Msg cexC7Deps) = 0
    ∧ countSends (handleWeChatInboundMessage cexC7Msg cexC7Deps) = 0 :=
  ⟨rfl, rfl, rfl, rfl⟩

/-- C7, amended claim. For every message that passes the mention filter and
is handled under effective policy "pairing" with a normalized sender id not
on the normalized allow-list: when the host `buildPairingReply` returns a
non-empty reply, the handler registers exactly one pairing request and sends
exactly one pairing reply (in that order) and nothing else; when the host
returns no reply or an empty one, nothing is registered or sent; in every
case the handler returns without recording activity or invoking the
reply-dispatch pipeline. -/
theorem c7_amended (msg : WeChatInboundMessage) (deps : WeChatInboundHandlerDeps)
    (hp : effectivePolicy msg deps = "pairing")
    (hu : (normalizedAllowFrom (deps.allowFrom.getD [])).contains
        (strToLower msg.senderWxid) = false)
    (hmf : (msg.chatType == "group" && deps.requireMention.getD true
        && !msg.isAtMe) = false) :
    handleWeChatInboundMessage msg deps =
      (match deps.buildPairingReply
          { senderId := if msg.chatType == "group" then msg.chatId else msg.senderWxid
          , senderName := if msg.chatType == "group" then "Group " ++ msg.chatId
              else msg.senderNickname.getD msg.senderWxid } with
       | some reply =>
         if reply == "" then []
         else
           [ WeChatEffect.pairingUpsert
               { channel := "wechat"
               , accountId := deps.accountId
               , senderId := if msg.chatType == "group" then msg.chatId
                   else msg.senderWxid
               , senderName := if msg.chatType == "group" then
                     some ("Group " ++ msg.chatId)
                   else msg.senderNickname
               , timestamp := deps.now }
           , WeChatEffect.sendText
               (if msg.chatType == "group" then msg.chatId else msg.senderWxid)
               reply ]
       | none => [])
    ∧ hasDispatch (handleWeChatInboundMessage msg deps) = false
    ∧ hasActivity (handleWeChatInboundMessage msg deps) = false := by
  have hchar : handleWeChatInboundMessage msg deps =
      (match deps.buildPairingReply
          { senderId := if msg.chatType == "group" then msg.chatId else msg.senderWxid
          , senderName := if msg.chatType == "group" then "Group " ++ msg.chatId
              else msg.senderNickname.getD msg.senderWxid } with
       | some reply =>
         if reply == "" then []
         else
           [ WeChatEffect.pairingUpsert
               { channel := "wechat"
               , accountId := deps.accountId
               , senderId := if msg.chatType == "group" then msg.chatId
                   else msg.senderWxid
               , senderName := if msg.chatType == "group" then
                     some ("Group " ++ msg.chatId)
                   else msg.senderNickname
               , timestamp := deps.now }
           , WeChatEffect.sendText
               (if msg.chatType == "group" then msg.chatId else msg.senderWxid)
               reply ]
       | none => []) := by
    simp only [handleWeChatInboundMessage, hmf, Bool.false_eq_true, if_false, hp, hu]
    simp
  refine ⟨hchar, ?_, ?_⟩
  · rw [hchar]
    rcases deps.buildPairingReply _ with _ | reply
    · rfl
    · by_cases hr : reply == ""
      · simp [hr, hasDispatch]
      · simp [hr, hasDispatch]
  · rw [hchar]
    rcases deps.buildPairingReply _ with _ | reply
    · rfl
    · by_cases hr : reply == ""
      · simp [hr, hasActivity]
      · simp [hr, hasActivity]

/-- Witness for C7: the host builds the reply "pair me" for an unlisted
direct sender under dm policy "pairing"; the handler registers one pairing
request and sends one reply. -/
theorem c7_witness :
    handleWeChatInboundMessage cexC7Msg cexC7DepsW =
      [ WeChatEffect.pairingUpsert
          { channel := "wechat", accountId := "default", senderId := "u2"
          , senderName := none, timestamp := 0 }
      , WeChatEffect.sendText "u2" "pair me" ] := by
  have h := (c7_amended cexC7Msg cexC7DepsW rfl rfl rfl).1
  rw [h]
  rfl

namespace Chunker

theorem dropWhile_nws (l : List Char) (h : ∀ c ∈ l, isWs c = false) :
    l.dropWhile isWs = l := by
  cases l with
  | nil => rfl
  | cons c cs =>
    rw [List.dropWhile_cons]
    simp [h c (by simp)]

theorem trimStart_nws (l : List Char) (h : ∀ c ∈ l, isWs c = false) :
    trimStart l = l := dropWhile_nws l h

theorem trimEnd_nws (l : List Char) (h : ∀ c ∈ l, isWs c = false) :
    trimEnd l = l := by
  unfold trimEnd
  rw [dropWhile_nws l.reverse (fun c hc => h c (List.mem_reverse.mp hc))]
  exact List.reverse_reverse l

theorem lastIndexOfAux_not_mem (c : Char) :
    ∀ (l : List Char) (i : Nat) (best : Int), c ∉ l →
      lastIndexOfAux c l i best = best
  | [], _, _, _ => rfl
  | x :: xs, i, best, h => by
    have h1 : x ≠ c := fun he => h (by simp [he])
    have h2 : c ∉ xs := fun hm => h (by simp [hm])
    rw [lastIndexOfAux]
    rw [show (x == c) = false from beq_eq_false_iff_ne.mpr h1]
    exact lastIndexOfAux_not_mem c xs (i + 1) best h2

theorem lastIndexOf_not_mem (l : List Char) (c : Char) (h : c ∉ l) :
    lastIndexOf l c = -1 := lastIndexOfAux_not_mem c l 0 (-1) h

theorem splitChunks_flatten (limit : Nat) :
    ∀ (sf : Nat) (l : List Char), (splitChunks limit sf l).flatten = l
  | 0, l => by simp [splitChunks]
  | sf + 1, l => by
    rw [splitChunks]
    by_cases h : l.length > limit
    · rw [if_pos h]
      rw [List.flatten_cons, splitChunks_flatten limit sf (l.drop limit)]
      exact List.take_append_drop limit l
    · rw [if_neg h]
      simp

theorem splitChunks_ne_nil (limit : Nat) :
    ∀ (sf : Nat) (l : List Char), splitChunks limit sf l ≠ []
  | 0, l => by simp [splitChunks]
  | sf + 1, l => by
    rw [splitChunks]
    by_cases h : l.length > limit
    · rw [if_pos h]; simp
    · rw [if_neg h]; simp

theorem splitChunks_dropLast_length (limit : Nat) :
    ∀ (sf : Nat) (l : List Char) (chunk : List Char),
      limit < l.length →
      chunk ∈ (splitChunks limit sf l).dropLast → chunk.length = limit
  | 0, l, chunk, _, hc => by simp [splitChunks] at hc
  | sf + 1, l, chunk, hlt, hc => by
    rw [splitChunks, if_pos hlt] at hc
    rw [List.dropLast_cons_of_ne_nil (splitChunks_ne_nil limit sf (l.drop limit))] at hc
    rcases List.mem_cons.mp hc with he | hm
    · rw [he, List.length_take]
      exact Nat.min_eq_left (le_of_lt hlt)
    · by_cases h2 : limit < (l.drop limit).length
      · exact splitChunks_dropLast_length limit sf (l.drop limit) chunk h2 hm
      · exfalso
        have : splitChunks limit sf (l.drop limit) = [l.drop limit] := by
          cases sf with
          | zero => rfl
          | succ sf2 =>
            rw [splitChunks, if_neg (by omega)]
        rw [this] at hm
        simp at hm

theorem chunkGo_nws (limit : Nat) (hl : 0 < limit) :
    ∀ (fuel : Nat) (sf : Nat) (remaining : List Char) (chunks : List (List Char)),
      remaining ≠ [] →
      (∀ c ∈ remaining, isWs c = false) →
      remaining.length ≤ fuel →
      remaining.length ≤ sf →
      chunkGo limit fuel remaining chunks = chunks ++ splitChunks limit sf remaining
  | 0, sf, remaining, chunks, hne, _, hfuel, _ => by
    exfalso
    cases remaining with
    | nil => exact hne rfl
    | cons x xs => simp at hfuel
  | fuel + 1, sf, remaining, chunks, hne, hws, hfuel, hsf => by
    rw [chunkGo]
    by_cases hlen : remaining.length > limit
    · rw [if_pos hlen]
      simp only []
      have hwwin : ∀ c ∈ remaining.take limit, isWs c = false :=
        fun c hc => hws c (List.take_subset limit remaining hc)
      have hnl : lastIndexOf (remaining.take limit) '\n' = -1 := by
        apply lastIndexOf_not_mem
        intro hmem
        have := hwwin _ hmem
        simp [isWs] at this
      have hsp : lastIndexOf (remaining.take limit) ' ' = -1 := by
        apply lastIndexOf_not_mem
        intro hmem
        have := hwwin _ hmem
        simp [isWs] at this
      rw [hnl, hsp]
      have hb0 : (if (-1 : Int) > 0 then (-1 : Int) else (-1 : Int)) = (-1 : Int) := by
        simp
      rw [hb0]
      rw [if_pos (by omega : (-1 : Int) ≤ 0)]
      rw [trimEnd_nws (remaining.take limit) hwwin]
      have hlentake : (remaining.take limit).length = limit := by
        rw [List.length_take]
        exact Nat.min_eq_left (le_of_lt hlen)
      rw [if_pos (by rw [hlentake]; omega : (remaining.take limit).length > 0)]
      have hgetp : (match remaining.get? limit with
          | some c => isWs c
          | none => false) = false := by
        cases hq : remaining.get? limit with
        | none => rfl
        | some c =>
          have hcin : c ∈ remaining := List.get?_mem hq
          exact hws c hcin
      rw [hgetp]
      have hsep : (decide (limit < remaining.length) && false) = false := by
        simp
      rw [hsep]
      have hnext : min remaining.length (limit + (if false = true then 1 else 0)) =
          limit := by
        simp
        omega
      rw [hnext]
      have hdws : ∀ c ∈ remaining.drop limit, isWs c = false :=
        fun c hc => hws c (List.drop_subset limit remaining hc)
      rw [trimStart_nws (remaining.drop limit) hdws]
      have hdne : remaining.drop limit ≠ [] := by
        intro he
        have := congrArg List.length he
        rw [List.length_drop] at this
        simp at this
        omega
      cases sf with
      | zero =>
        exfalso
        cases remaining with
        | nil => exact hne rfl
        | cons x xs => simp at hsf
      | succ sf2 =>
        rw [chunkGo_nws limit hl fuel sf2 (remaining.drop limit) _ hdne hdws
          (by rw [List.length_drop]; omega) (by rw [List.length_drop]; omega)]
        rw [splitChunks, if_pos hlen]
        simp
    · rw [if_neg hlen]
      have hlen0 : remaining.length > 0 := by
        cases remaining with
        | nil => exact absurd rfl hne
        | cons x xs => simp
      rw [if_pos hlen0]
      cases sf with
      | zero => rfl
      | succ sf2 =>
        rw [splitChunks, if_neg hlen]

end Chunker

/-- C8. For non-empty text without whitespace and a positive limit smaller
than the text length, the outbound chunker force-breaks exactly at the limit
boundary: every chunk except possibly the last is exactly `limit` characters
long and the concatenation of all chunks is the input text. -/
theorem c8_chunker (text : List Char) (limit : Nat)
    (hne : text ≠ []) (hws : ∀ c ∈ text, Chunker.isWs c = false)
    (hpos : 0 < limit) (hlt : limit < text.length) :
    (∀ chunk ∈ (Chunker.chunker text limit).dropLast, chunk.length = limit)
    ∧ (Chunker.chunker text limit).flatten = text := by
  have hie : text.isEmpty = false := by
    cases text with
    | nil => exact absurd rfl hne
    | cons x xs => rfl
  have h1 : (decide (limit = 0)) = false := decide_eq_false (by omega)
  have h2 : (decide (text.length ≤ limit)) = false := decide_eq_false (by omega)
  have hc : Chunker.chunker text limit = Chunker.chunkGo limit text.length text [] := by
    simp [Chunker.chunker, hie, h1, h2]
  rw [hc, Chunker.chunkGo_nws limit hpos text.length text.length text [] hne hws
    le_rfl le_rfl, List.nil_append]
  exact ⟨fun chunk hc2 =>
      Chunker.splitChunks_dropLast_length limit text.length text chunk hlt hc2,
    Chunker.splitChunks_flatten limit text.length text⟩

/-- Witness for C8: the seven-character whitespace-free text is cut at limit
3 into chunks of 3, 3 and 1 characters whose concatenation is the input. -/
theorem c8_witness :
    (∀ chunk ∈ (Chunker.chunker "abcdefg".toList 3).dropLast, chunk.length = 3)
    ∧ (Chunker.chunker "abcdefg".toList 3).flatten = "abcdefg".toList :=
  c8_chunker "abcdefg".toList 3 (by decide) (by decide) (by decide) (by decide)

/-- C9. For a backend response whose body parses as a `{code, message,
data}` envelope, the client raises `WeChatApiError` carrying the backend
message (or a generic fallback naming the endpoint), the backend code and
the serialized body exactly when the envelope code differs from 200; a 200
envelope is returned unchanged; the transport status is never consulted. -/
theorem c9_envelope {T : Type} (endpoint : String)
    (serialize : WeChatApiResponse T → String) (s1 s2 : Nat)
    (resp : WeChatApiResponse T) :
    (resp.code ≠ 200 →
      callApi endpoint serialize s1 resp =
        Except.error
          { message := resp.message.getD ("API error: " ++ endpoint)
          , code := some resp.code
          , response := some (serialize resp) })
    ∧ (resp.code = 200 → callApi endpoint serialize s1 resp = Except.ok resp)
    ∧ callApi endpoint serialize s1 resp = callApi endpoint serialize s2 resp := by
  refine ⟨?_, ?_, ?_⟩
  · intro h
    simp [callApi, h]
  · intro h
    simp [callApi, h]
  · rfl

/-- Witness for C9: a code-500 envelope raises the error with the backend
message, code and serialized body; a code-200 envelope is returned
unchanged. -/
theorem c9_witness :
    callApi "/api/v1/robot/state" (fun _ => "raw-body") 200
        ({ code := 500, message := some "boom", data := some (1 : Nat) }) =
      Except.error { message := "boom", code := some 500, response := some "raw-body" }
    ∧ callApi "/api/v1/robot/state" (fun _ => "raw-body") 404
        ({ code := 200, message := none, data := some (2 : Nat) }) =
      Except.ok { code := 200, message := none, data := some (2 : Nat) } :=
  ⟨(c9_envelope "/api/v1/robot/state" (fun _ => "raw-body") 200 200
      { code := 500, message := some "boom", data := some (1 : Nat) }).1 (by decide),
   (c9_envelope "/api/v1/robot/state" (fun _ => "raw-body") 404 404
      { code := 200, message := none, data := some (2 : Nat) }).2.1 rfl⟩
